import Mathlib

/-!
Shallow embedding of the analytics/aggregation core of the `github-mcp`
repository (modules `src/contribution/contribution_analytics.py`,
`src/repo_management/branches.py`, `src/repo_management/health.py`,
`src/issue_and_pr_management/pr_reviews.py`).

Modelling conventions:
* Python dict-shaped JSON reports are embedded as association lists
  `List (String × JVal)` (insertion order preserved, as in Python dicts);
  dicts keyed by integers (hour-of-day buckets) use `JVal.iobj`.
* Python numbers: `Int` for ints, `ℚ` for floats; float arithmetic is
  idealized as exact rational arithmetic.
* `datetime` values are embedded as epoch seconds (`Int`); the
  `datetime.fromisoformat` parser (applied after the `.replace('Z','+00:00')`
  preprocessing) is an abstract parameter `parse : String → Option Int`,
  `none` meaning the call raises `ValueError`.  Calendar days are epoch
  seconds floor-divided by 86400; the `"%Y-%m-%d"` day strings used as dict
  keys in the source round-trip bijectively and order-preservingly with these
  day numbers, so day numbers are used as the keys directly.  `strftime`
  output strings are produced by abstract formatter parameters.
* Exceptions are `Except PyExn`; each aggregator's `try/except` boundary is
  the function `runTool`.
* HTTP responses are `RespOf α`: a status code, a typed decoded body
  (standing for `.json()`), and the raw text.
-/

namespace GithubMcp

/-- Embedded Python/JSON value (report payloads). -/
inductive JVal : Type where
  | s (v : String)
  | i (v : Int)
  | q (v : ℚ)
  | b (v : Bool)
  | null
  | arr (vs : List JVal)
  | obj (kvs : List (String × JVal))
  | iobj (kvs : List (Int × JVal))

/-- A report: a Python dict with string keys in insertion order. -/
abbrev Report := List (String × JVal)

/-- `d.get(k)` on an embedded dict. -/
def rLookup (r : Report) (k : String) : Option JVal :=
  (r.find? (fun p => p.1 = k)).map (fun p => p.2)

/-- Embedded Python exceptions (the ones the modelled code can raise). -/
inductive PyExn : Type where
  | httpStatusError (code : Nat) (text : String)
  | valueError (msg : String)
deriving DecidableEq

/-- An HTTP response carrying a typed decoded JSON body. -/
structure RespOf (α : Type) : Type where
  status : Nat
  body : α
  text : String

/-- `httpx` treats exactly the 2xx range as success. -/
def is2xx (status : Nat) : Bool := 200 ≤ status && status < 300

/-- `r = client.get(...)`, `r.raise_for_status()`, `r.json()`. -/
def fetch {α : Type} (r : RespOf α) : Except PyExn α :=
  if is2xx r.status then .ok r.body else .error (.httpStatusError r.status r.text)

/-- The `try/except httpx.HTTPStatusError/except Exception` boundary every
aggregator wraps its body in; `genericMsg` is that aggregator's generic
error message. -/
def runTool (genericMsg : String) (m : Except PyExn Report) : Report :=
  match m with
  | .ok r => r
  | .error (.httpStatusError code text) =>
      [("error", .s ("HTTP error " ++ toString code)), ("details", .s text)]
  | .error (.valueError msg) =>
      [("error", .s genericMsg), ("details", .s msg)]

/-- Python truthiness of an optional string (`None` and `""` are falsy). -/
def truthyS : Option String → Bool
  | none => false
  | some v => v ≠ ""

/-- `needle in hay` on Python strings (substring test). -/
def pyInStr (needle hay : String) : Bool :=
  needle = "" || (hay.splitOn needle).length > 1

/-- One `d[k] += 1` step on a `defaultdict(int)` embedded as an assoc list
(first-occurrence key order, as in Python dicts). -/
def bump {K : Type} [DecidableEq K] (k : K) : List (K × Nat) → List (K × Nat)
  | [] => [(k, 1)]
  | (k', n) :: l => if k' = k then (k', n + 1) :: l else (k', n) :: bump k l

/-- `defaultdict(int)` counting loop: `for x in xs: d[key(x)] += 1`. -/
def countBy {α K : Type} [DecidableEq K] (key : α → K) (xs : List α) :
    List (K × Nat) :=
  xs.foldl (fun acc a => bump (key a) acc) []

/-- One `d[k] = v` step on a Python dict (existing key keeps its position,
new key appended; last write wins). -/
def setKV {K V : Type} [DecidableEq K] (k : K) (v : V) :
    List (K × V) → List (K × V)
  | [] => [(k, v)]
  | (k', v') :: l => if k' = k then (k, v) :: l else (k', v') :: setKV k v l

/-- Insert into a descending-sorted list, after any entries whose key is not
strictly smaller (this yields the stability of Python's `sorted`). -/
def insertDescBy {α K : Type} (lt : K → K → Bool) (key : α → K) (a : α) :
    List α → List α
  | [] => [a]
  | b :: l => if lt (key b) (key a) then a :: b :: l else b :: insertDescBy lt key a l

/-- `sorted(xs, key=key, reverse=True)`: stable sort by strictly descending
key. -/
def pySortedDesc {α K : Type} (lt : K → K → Bool) (key : α → K) (xs : List α) :
    List α :=
  xs.foldl (fun acc a => insertDescBy lt key a acc) []

/-- Round a rational to the nearest integer, ties to even (Python `round`). -/
def roundHalfEven (x : ℚ) : Int :=
  let f : Int := ⌊x⌋
  let frac : ℚ := x - (f : ℚ)
  if frac < 1/2 then f
  else if 1/2 < frac then f + 1
  else if f % 2 = 0 then f else f + 1

/-- Python `round(x, n)` under exact rational arithmetic. -/
def pyRound (x : ℚ) (n : Nat) : ℚ :=
  ((roundHalfEven (x * (10 : ℚ) ^ n) : ℚ)) / (10 : ℚ) ^ n

/-- `s.split(sep)[0]` for a nonempty separator: Python `split` always
returns a nonempty list, so index 0 is total. -/
def pyFirstLine (s : String) : String := (s.splitOn "\n").headD ""

/-- Epoch seconds → calendar-day number (floor, as `timedelta` normalizes). -/
def dayOf (t : Int) : Int := Int.fdiv t 86400

/-- Epoch seconds → hour of day, 0–23. -/
def hourOf (t : Int) : Int := Int.fdiv (Int.emod t 86400) 3600

/-- Difference in whole days `(a - b).days` between two instants (floor). -/
def daysBetween (a b : Int) : Int := Int.fdiv (a - b) 86400

/-- Strict `<` on `Int` as a Bool (Python key comparison). -/
def intLt (a b : Int) : Bool := a < b

/-- Strict `<` on `Nat` as a Bool. -/
def natLt (a b : Nat) : Bool := a < b

/-- Strict `<` on `String` as a Bool (Python compares code points). -/
def strLt (a b : String) : Bool := a < b

/-- `None`-aware JSON rendering of an optional string. -/
def optS : Option String → JVal
  | none => .null
  | some v => .s v

/-- Python `max(xs, key=...)` for nonempty `xs`: first maximum wins, so a
later element replaces the running best only when strictly greater. -/
def pyMaxBy {α : Type} (gt : α → α → Bool) : List α → Option α
  | [] => none
  | x :: xs => some (xs.foldl (fun best y => if gt y best then y else best) x)

/-- Python `int()` on a nonnegative-or-negative rational: truncation toward
zero. -/
def pyIntTrunc (x : ℚ) : Int := if 0 ≤ x then ⌊x⌋ else ⌈x⌉

/-- A GitHub user-event item (`events_data` entries); `repo_name` stands for
`event["repo"]["name"]`, `none` for a missing key. -/
structure Event : Type where
  type : Option String
  created_at : Option String
  repo_name : Option String

/-- A repository item as listed by `/users/{u}/repos` or `/users/{u}/starred`.
`description` models `.get("description", "")`. -/
structure Repo : Type where
  name : Option String
  full_name : Option String
  description : String
  language : Option String
  stargazers_count : Int
  forks_count : Int
  watchers_count : Int
  updated_at : Option String
  fork : Bool
  topics : List String

/-- The `/users/{username}` profile payload. -/
structure UserData : Type where
  login : Option String
  name : Option String
  bio : Option String
  location : Option String
  company : Option String
  blog : Option String
  public_repos : Int
  public_gists : Int
  followers : Int
  following : Int
  created_at : Option String
  updated_at : Option String

/-- A `/repos/{o}/{r}/contributors` entry. -/
structure Contributor : Type where
  login : Option String
  contributions : Int
  avatar_url : Option String

/-- A `/repos/{o}/{r}/commits` entry: only
`commit["commit"]["author"]["name"]` is consumed. -/
structure RepoCommit : Type where
  author_name : Option String

/-- A `/repos/{o}/{r}/issues` entry; `has_pull_request` is the truthiness of
`issue.get("pull_request")`. -/
structure Issue : Type where
  has_pull_request : Bool
  created_at : Option String
  state : Option String

/-- `datetime.fromisoformat(s.replace('Z', '+00:00'))` raising `ValueError`
when the string does not parse. -/
def eventTs (parse : String → Option Int) (s : String) : Except PyExn Int :=
  match parse s with
  | some t => .ok t
  | none => .error (.valueError ("Invalid isoformat string: " ++ s))

/-- A list comprehension `[x for x in xs if p(x)]` whose condition may
raise: conditions are evaluated left to right and the first raise aborts. -/
def pyFilter {α : Type} (p : α → Except PyExn Bool) : List α → Except PyExn (List α)
  | [] => .ok []
  | x :: xs => do
      let b ← p x
      let rest ← pyFilter p xs
      pure (if b then x :: rest else rest)

/-- A list comprehension `[f(x) for x in xs]` whose body may raise, left to
right. -/
def pyMapE {α β : Type} (f : α → Except PyExn β) : List α → Except PyExn (List β)
  | [] => .ok []
  | x :: xs => do
      let y ← f x
      let ys ← pyMapE f xs
      pure (y :: ys)

/-- `_analyze_user_repositories` from `contribution_analytics.py`. -/
def analyze_user_repositories (repos_data : List Repo) : Report :=
  if repos_data.isEmpty then [("total_repos", .i 0)]
  else
    let total_stars := (repos_data.map (fun r => r.stargazers_count)).sum
    let total_forks := (repos_data.map (fun r => r.forks_count)).sum
    let total_watchers := (repos_data.map (fun r => r.watchers_count)).sum
    let popular_repos :=
      (pySortedDesc intLt (fun r => r.stargazers_count) repos_data).take 10
    let recent_repos :=
      (pySortedDesc strLt (fun r => r.updated_at.getD "") repos_data).take 10
    let languages := repos_data.foldl
      (fun acc r => if truthyS r.language then bump (r.language.getD "") acc else acc) []
    let owned_repos := repos_data.filter (fun r => !r.fork)
    let forked_repos := repos_data.filter (fun r => r.fork)
    [("total_repos", .i repos_data.length),
     ("owned_repos", .i owned_repos.length),
     ("forked_repos", .i forked_repos.length),
     ("total_stars_received", .i total_stars),
     ("total_forks_received", .i total_forks),
     ("total_watchers", .i total_watchers),
     ("average_stars_per_repo",
       if repos_data.isEmpty then .i 0
       else .q (pyRound ((total_stars : ℚ) / (repos_data.length : ℚ)) 2)),
     ("languages", .obj (languages.map (fun p => (p.1, JVal.i p.2)))),
     ("most_popular_repos", .arr ((popular_repos.take 5).map (fun r =>
        .obj [("name", optS r.name),
              ("stars", .i r.stargazers_count),
              ("forks", .i r.forks_count),
              ("language", optS r.language),
              ("description", .s (r.description.take 100))]))),
     ("recently_updated", .arr ((recent_repos.take 5).map (fun r =>
        .obj [("name", optS r.name),
              ("updated_at", optS r.updated_at),
              ("language", optS r.language),
              ("description", .s (r.description.take 100))])))]

/-- An entry appended to `language_repos[lang]` by `_analyze_user_languages`. -/
structure LangEntry : Type where
  name : Option String
  stars : Int
  updated_at : Option String

/-- `defaultdict(list)` append: `d[k].append(v)`. -/
def pushKV {K V : Type} [DecidableEq K] (k : K) (v : V) :
    List (K × List V) → List (K × List V)
  | [] => [(k, [v])]
  | (k', vs) :: l =>
      if k' = k then (k', vs ++ [v]) :: l else (k', vs) :: pushKV k v l

/-- `_analyze_user_languages` from `contribution_analytics.py`. -/
def analyze_user_languages (repos_data : List Repo) : Report :=
  let languages := repos_data.foldl
    (fun acc r => if truthyS r.language then bump (r.language.getD "") acc else acc) []
  let language_repos := repos_data.foldl
    (fun acc r =>
      if truthyS r.language then
        pushKV (r.language.getD "")
          (LangEntry.mk r.name r.stargazers_count r.updated_at) acc
      else acc) []
  let total_repos := (repos_data.filter (fun r => truthyS r.language)).length
  let lang_popularity := language_repos.map
    (fun p => (p.1, (p.2.map (fun e => e.stars)).sum))
  [("total_languages", .i languages.length),
   ("language_distribution", .obj (languages.map (fun p => (p.1, JVal.i p.2)))),
   ("language_diversity_score",
     if total_repos > 0 then
       .q (pyRound ((languages.length : ℚ) / (total_repos : ℚ)) 2)
     else .i 0),
   ("most_used_language",
     match pyMaxBy (fun y best => y.2 > best.2) languages with
     | some p => .s p.1
     | none => .null),
   ("most_popular_by_stars",
     match pyMaxBy (fun (y best : String × Int) => y.2 > best.2) lang_popularity with
     | some p => .s p.1
     | none => .null),
   ("language_repos", .obj (language_repos.map (fun p =>
      (p.1, JVal.arr (((pySortedDesc intLt (fun e => e.stars) p.2).take 3).map
        (fun e => .obj [("name", optS e.name),
                        ("stars", .i e.stars),
                        ("updated_at", optS e.updated_at)]))))))]

/-- `_calculate_collaboration_score` from `contribution_analytics.py`. -/
def calculate_collaboration_score (forks : Nat) (pr_events issue_events : List Event) :
    Nat :=
  let score := 0 + min (forks * 5) 30
  let score := score + min (pr_events.length * 3) 40
  let score := score + min (issue_events.length * 2) 30
  min score 100

/-- `_analyze_collaboration_metrics` from `contribution_analytics.py`. -/
def analyze_collaboration_metrics (repos_data : List Repo)
    (events_data : List Event) : Report :=
  let fork_count := (repos_data.filter (fun r => r.fork)).length
  let pr_events := events_data.filter (fun e => e.type = some "PullRequestEvent")
  let issue_events := events_data.filter (fun e => e.type = some "IssuesEvent")
  let contributed_repos :=
    ((events_data.filterMap (fun e =>
      if truthyS e.repo_name then e.repo_name else none)).dedup).length
  [("total_forks_created", .i fork_count),
   ("recent_pr_activity", .i pr_events.length),
   ("recent_issue_activity", .i issue_events.length),
   ("unique_repos_contributed", .i contributed_repos),
   ("collaboration_score",
     .i (calculate_collaboration_score fork_count pr_events issue_events)),
   ("contribution_diversity",
     if repos_data.isEmpty then .i 0
     else .q ((contributed_repos : ℚ) / (repos_data.length : ℚ)))]

/-- `_analyze_starred_repos` from `contribution_analytics.py`. -/
def analyze_starred_repos (starred_data : List Repo) : Report :=
  if starred_data.isEmpty then [("total_starred", .i 0)]
  else
    let starred_languages := starred_data.foldl
      (fun acc r => if truthyS r.language then bump (r.language.getD "") acc else acc) []
    let topics := starred_data.foldl
      (fun acc r => r.topics.foldl (fun a t => bump t a) acc) []
    let popular_starred :=
      (pySortedDesc intLt (fun r => r.stargazers_count) starred_data).take 10
    [("total_starred", .i starred_data.length),
     ("language_interests", .obj (starred_languages.map (fun p => (p.1, JVal.i p.2)))),
     ("topic_interests", .obj
       (((pySortedDesc natLt (fun p => p.2) topics).take 10).map
         (fun p => (p.1, JVal.i p.2)))),
     ("most_popular_starred", .arr ((popular_starred.take 5).map (fun r =>
        .obj [("name", optS r.full_name),
              ("stars", .i r.stargazers_count),
              ("language", optS r.language),
              ("description", .s (r.description.take 100))])))]

/-- The streak-walk loop of `_calculate_activity_streak`: one iteration per
sorted day, continuing the running streak only on an exactly-one-day step. -/
def streakWalk (prev : Int) (temp longest : Nat) : List Int → Nat × Nat
  | [] => (temp, longest)
  | d :: ds =>
      let t := if d - prev = 1 then temp + 1 else 1
      streakWalk d t (max longest t) ds

/-- `_calculate_activity_streak` from `contribution_analytics.py`; day-string
dict keys are modelled as day numbers (the `"%Y-%m-%d"` encoding is a
strictly monotone bijection, so `sorted`, `strptime` differences and the
membership test are preserved), and `today` is the call date. -/
def calculate_activity_streak (daily_activity : List (Int × Nat)) (today : Int) :
    Report :=
  if daily_activity.isEmpty then
    [("current_streak", .i 0), ("longest_streak", .i 0)]
  else
    let sorted_days := List.insertionSort (fun a b => a ≤ b) (daily_activity.map Prod.fst)
    match sorted_days with
    | [] => [("current_streak", .i 0), ("longest_streak", .i 0)]
    | d :: ds =>
      let tl := streakWalk d 1 (max 0 1) ds
      let current : Nat :=
        if today ∈ daily_activity.map Prod.fst ∨
           (¬(d :: ds).isEmpty ∧ today - (d :: ds).getLastD 0 ≤ 1) then tl.1
        else 0
      [("current_streak", .i current), ("longest_streak", .i tl.2)]

/-- `_calculate_activity_score` from `contribution_analytics.py`; raises
(`ValueError`) when some event timestamp does not parse. -/
def calculate_activity_score (parse : String → Option Int)
    (events : List Event) (days : Nat) : Except PyExn Int := do
  if events.isEmpty || days = 0 then return 0
  let events_per_day : ℚ := (events.length : ℚ) / (days : ℚ)
  let base_score : ℚ := min (events_per_day * 10) 50
  let activity_types := (events.map (fun e => e.type.getD "")).dedup
  let diversity_bonus : ℚ := min ((activity_types.length : ℚ) * 5) 30
  let dailyKeys ← pyMapE (fun e => do
    let t ← eventTs parse (e.created_at.getD "")
    pure (dayOf t)) events
  let daily_activity := countBy id dailyKeys
  let active_days := daily_activity.length
  let consistency_bonus : ℚ := min (((active_days : ℚ) / (days : ℚ)) * 20) 20
  let total_score := base_score + diversity_bonus + consistency_bonus
  return min (pyIntTrunc total_score) 100

/-- `_analyze_user_activity` from `contribution_analytics.py`; `fmtDay` is
`strftime("%Y-%m-%d")` on a day number, `now` the UTC call instant.  An
unparseable `created_at` raises out of the list comprehension. -/
def analyze_user_activity (parse : String → Option Int) (fmtDay : Int → String)
    (events_data : List Event) (days : Nat) (now : Int) :
    Except PyExn Report := do
  if events_data.isEmpty then return [("total_events", .i 0)]
  let cutoff := now - (days : Int) * 86400
  let recent_events ← pyFilter (fun e => do
    let t ← eventTs parse (e.created_at.getD "")
    pure (decide (t > cutoff))) events_data
  let activity_types := countBy (fun e => e.type.getD "Unknown") recent_events
  let dailyKeys ← pyMapE (fun e => do
    let t ← eventTs parse (e.created_at.getD "")
    pure (dayOf t)) recent_events
  let daily_activity := countBy id dailyKeys
  let hourKeys ← pyMapE (fun e => do
    let t ← eventTs parse (e.created_at.getD "")
    pure (hourOf t)) recent_events
  let hourly_activity := countBy id hourKeys
  let repo_activity := countBy (fun e => e.repo_name.getD "Unknown") recent_events
  let activity_streak := calculate_activity_streak daily_activity (dayOf now)
  let score ← calculate_activity_score parse recent_events days
  return [
    ("total_events", .i recent_events.length),
    ("activity_types", .obj (activity_types.map (fun p => (p.1, JVal.i p.2)))),
    ("daily_activity", .obj (daily_activity.map (fun p => (fmtDay p.1, JVal.i p.2)))),
    ("hourly_patterns", .iobj (hourly_activity.map (fun p => (p.1, JVal.i p.2)))),
    ("most_active_repos", .obj
      (((pySortedDesc natLt (fun p => p.2) repo_activity).take 10).map
        (fun p => (p.1, JVal.i p.2)))),
    ("activity_streak", .obj activity_streak),
    ("average_daily_activity",
      if days > 0 then .q (pyRound ((recent_events.length : ℚ) / (days : ℚ)) 2)
      else .i 0),
    ("most_active_hour",
      match pyMaxBy (fun (y best : Int × Nat) => y.2 > best.2) hourly_activity with
      | some p => .i p.1
      | none => .null),
    ("activity_score", .i score)]

/-- `_analyze_user_contributions` from `contribution_analytics.py`. -/
def analyze_user_contributions (parse : String → Option Int)
    (fmtDay : Int → String) (user_data : UserData) (repos_data : List Repo)
    (events_data : List Event) (starred_data : List Repo) (days : Nat)
    (now : Int) : Except PyExn Report := do
  let profile : Report :=
    [("username", optS user_data.login),
     ("name", optS user_data.name),
     ("bio", optS user_data.bio),
     ("location", optS user_data.location),
     ("company", optS user_data.company),
     ("blog", optS user_data.blog),
     ("public_repos", .i user_data.public_repos),
     ("public_gists", .i user_data.public_gists),
     ("followers", .i user_data.followers),
     ("following", .i user_data.following),
     ("created_at", optS user_data.created_at),
     ("updated_at", optS user_data.updated_at)]
  let repo_analytics := analyze_user_repositories repos_data
  let activity_analytics ← analyze_user_activity parse fmtDay events_data days now
  let language_analytics := analyze_user_languages repos_data
  let collaboration_analytics := analyze_collaboration_metrics repos_data events_data
  let starred_analytics := analyze_starred_repos starred_data
  return [
    ("profile", .obj profile),
    ("repositories", .obj repo_analytics),
    ("activity", .obj activity_analytics),
    ("languages", .obj language_analytics),
    ("collaboration", .obj collaboration_analytics),
    ("starred", .obj starred_analytics),
    ("analysis_period_days", .i days)]

/-- `get_user_contribution_analytics` from `contribution_analytics.py`,
given the four HTTP responses its client issues (in fetch order: user,
repos, events, starred). -/
def get_user_contribution_analytics (token : Option String)
    (parse : String → Option Int) (fmtDay : Int → String)
    (rUser : RespOf UserData) (rRepos : RespOf (List Repo))
    (rEvents : RespOf (List Event)) (rStarred : RespOf (List Repo))
    (days : Nat) (now : Int) : Report :=
  if !truthyS token then [("error", .s "⚠️ No GITHUB_TOKEN set in environment.")]
  else
    runTool "Exception occurred while fetching contribution data" (do
      let user_data ← fetch rUser
      let repos_data ← fetch rRepos
      let events_data ← fetch rEvents
      let starred_data ← fetch rStarred
      analyze_user_contributions parse fmtDay user_data repos_data events_data
        starred_data days now)

/-- `_analyze_contributors` from `contribution_analytics.py`. -/
def analyze_contributors (contributors_data : List Contributor) : Report :=
  if contributors_data.isEmpty then [("total_contributors", .i 0)]
  else
    let total_contributions := (contributors_data.map (fun c => c.contributions)).sum
    [("total_contributors", .i contributors_data.length),
     ("total_contributions", .i total_contributions),
     ("top_contributors", .arr ((contributors_data.take 10).map (fun c =>
        .obj [("username", optS c.login),
              ("contributions", .i c.contributions),
              ("avatar_url", optS c.avatar_url)])))]

/-- `_analyze_recent_commits` from `contribution_analytics.py`. -/
def analyze_recent_commits (commits_data : List RepoCommit) (days : Nat) :
    Report :=
  if commits_data.isEmpty then [("total_commits", .i 0)]
  else
    let authors := countBy (fun c => c.author_name.getD "Unknown") commits_data
    [("total_commits", .i commits_data.length),
     ("unique_authors", .i authors.length),
     ("commits_per_day",
       if days > 0 then .q (pyRound ((commits_data.length : ℚ) / (days : ℚ)) 2)
       else .i 0),
     ("top_committers", .obj
       (((pySortedDesc natLt (fun p => p.2) authors).take 10).map
         (fun p => (p.1, JVal.i p.2))))]

/-- A `/repos/{o}/{r}/pulls` list entry (fields consumed anywhere in the
embedded modules). `body` models `.get("body", "")`. -/
structure PrData : Type where
  number : Option Int
  title : Option String
  state : Option String
  merged : Bool
  mergeable : Option Bool
  user_login : Option String
  created_at : Option String
  updated_at : Option String
  base_ref : Option String
  head_ref : Option String
  html_url : Option String
  body : String

/-- `_analyze_prs` from `contribution_analytics.py`. -/
def analyze_prs (parse : String → Option Int) (prs_data : List PrData)
    (days : Nat) (now : Int) : Except PyExn Report := do
  if prs_data.isEmpty then return [("total_prs", .i 0)]
  let cutoff := now - (days : Int) * 86400
  let recent_prs ← pyFilter (fun pr => do
    let t ← eventTs parse (pr.created_at.getD "")
    pure (decide (t > cutoff))) prs_data
  let states := countBy (fun pr => pr.state.getD "unknown") prs_data
  return [
    ("total_prs", .i prs_data.length),
    ("recent_prs", .i recent_prs.length),
    ("pr_states", .obj (states.map (fun p => (p.1, JVal.i p.2)))),
    ("prs_per_day",
      if days > 0 then .q (pyRound ((recent_prs.length : ℚ) / (days : ℚ)) 2)
      else .i 0)]

/-- `_analyze_issues` from `contribution_analytics.py`: PR-backed entries are
dropped first; an unparseable `created_at` among the remaining issues raises
out of the windowing comprehension. -/
def analyze_issues (parse : String → Option Int) (issues_data : List Issue)
    (days : Nat) (now : Int) : Except PyExn Report := do
  if issues_data.isEmpty then return [("total_issues", .i 0)]
  let actual_issues := issues_data.filter (fun i => !i.has_pull_request)
  let cutoff := now - (days : Int) * 86400
  let recent_issues ← pyFilter (fun i => do
    let t ← eventTs parse (i.created_at.getD "")
    pure (decide (t > cutoff))) actual_issues
  let states := countBy (fun i => i.state.getD "unknown") actual_issues
  return [
    ("total_issues", .i actual_issues.length),
    ("recent_issues", .i recent_issues.length),
    ("issue_states", .obj (states.map (fun p => (p.1, JVal.i p.2)))),
    ("issues_per_day",
      if days > 0 then .q (pyRound ((recent_issues.length : ℚ) / (days : ℚ)) 2)
      else .i 0)]

/-- The `/repos/{owner}/{repo}` payload (fields consumed anywhere in the
embedded modules). -/
structure LicenseInfo : Type where
  name : Option String

/-- Repository metadata payload. -/
structure RepoData : Type where
  full_name : Option String
  description : Option String
  language : Option String
  stargazers_count : Int
  forks_count : Int
  watchers_count : Int
  open_issues_count : Int
  created_at : Option String
  updated_at : Option String
  license : Option LicenseInfo
  has_issues : Bool
  has_wiki : Bool
  has_projects : Bool
  topics : List String
  archived : Bool
  fork : Bool
  default_branch : Option String

/-- `_analyze_repository_contributions` from `contribution_analytics.py`. -/
def analyze_repository_contributions (parse : String → Option Int)
    (repo_data : RepoData) (contributors_data : List Contributor)
    (commits_data : List RepoCommit) (prs_data : List PrData)
    (issues_data : List Issue) (days : Nat) (now : Int) :
    Except PyExn Report := do
  let repo_info : Report :=
    [("name", optS repo_data.full_name),
     ("description", optS repo_data.description),
     ("language", optS repo_data.language),
     ("stars", .i repo_data.stargazers_count),
     ("forks", .i repo_data.forks_count),
     ("watchers", .i repo_data.watchers_count),
     ("open_issues", .i repo_data.open_issues_count),
     ("created_at", optS repo_data.created_at),
     ("updated_at", optS repo_data.updated_at)]
  let contributors_analysis := analyze_contributors contributors_data
  let commits_analysis := analyze_recent_commits commits_data days
  let prs_analysis ← analyze_prs parse prs_data days now
  let issues_analysis ← analyze_issues parse issues_data days now
  return [
    ("repository", .obj repo_info),
    ("contributors", .obj contributors_analysis),
    ("commits", .obj commits_analysis),
    ("pull_requests", .obj prs_analysis),
    ("issues", .obj issues_analysis),
    ("analysis_period_days", .i days)]

/-- `get_repository_contribution_analytics` from `contribution_analytics.py`,
given the five HTTP responses its client issues (in fetch order: repo,
contributors, commits, prs, issues). -/
def get_repository_contribution_analytics (token : Option String)
    (parse : String → Option Int) (rRepo : RespOf RepoData)
    (rContributors : RespOf (List Contributor))
    (rCommits : RespOf (List RepoCommit)) (rPrs : RespOf (List PrData))
    (rIssues : RespOf (List Issue)) (days : Nat) (now : Int) : Report :=
  if !truthyS token then [("error", .s "⚠️ No GITHUB_TOKEN set in environment.")]
  else
    runTool "Exception occurred while fetching repository data" (do
      let repo_data ← fetch rRepo
      let contributors_data ← fetch rContributors
      let commits_data ← fetch rCommits
      let prs_data ← fetch rPrs
      let issues_data ← fetch rIssues
      analyze_repository_contributions parse repo_data contributors_data
        commits_data prs_data issues_data days now)

/-- `None`-aware JSON rendering of an optional integer. -/
def optI : Option Int → JVal
  | none => .null
  | some v => .i v

/-- A `/repos/{o}/{r}/branches` entry: the branch name and the pieces of the
nested head-commit object the module reads. -/
structure BranchItem : Type where
  name : Option String
  commit_sha : Option String
  author_name : Option String
  author_date : Option String
  message : Option String

/-- The per-branch date display of `branches.py` (`try`/`except` around
`fromisoformat` + `strftime`): `fmt` is `strftime("%Y-%m-%d %H:%M")`.
`commit_date` is already defaulted to `"Unknown"`. -/
def branchDateDisplay (parse : String → Option Int) (fmt : Int → String)
    (now : Int) (commit_date : String) : JVal :=
  if commit_date ≠ "Unknown" then
    match parse commit_date with
    | some t =>
        .obj [("raw", .s commit_date),
              ("formatted", .s (fmt t)),
              ("days_ago", .i (daysBetween now t))]
    | none => .obj [("raw", .s commit_date)]
  else .obj [("raw", .s "Unknown")]

/-- `d.get(k)` on an assoc-list dict with values of any one type. -/
def aLookup {V : Type} (l : List (String × V)) (k : String) : Option V :=
  (l.find? (fun p => p.1 = k)).map (fun p => p.2)

/-- The PR summary stored into `pr_map` (and echoed per branch);
`title`/`url` are fetched with `""` defaults. -/
def prMapEntry (pr : PrData) : JVal :=
  .obj [("number", optI pr.number),
        ("state", optS pr.state),
        ("merged", .b pr.merged),
        ("title", .s (pr.title.getD "")),
        ("url", .s (pr.html_url.getD ""))]

/-- The sort key of `get_branch_status_overview`:
`(b.get("name") != default_branch, …author date or "")`. -/
def branchSortKey (default_branch : String) (b : BranchItem) : Bool × String :=
  (decide (b.name ≠ some default_branch), b.author_date.getD "")

/-- Python `<` on `(bool, str)` tuples (`False < True`, then string order). -/
def boolStrLt (a b : Bool × String) : Bool :=
  (!a.1 && b.1) || (a.1 = b.1 && strLt a.2 b.2)

/-- One entry of the `branches` result list. -/
def branchEntry (parse : String → Option Int) (fmt : Int → String) (now : Int)
    (default_branch : String) (pr_map : List (String × JVal))
    (branch : BranchItem) : JVal :=
  let name := branch.name.getD "Unknown"
  let commit_sha := (branch.commit_sha.getD "").take 7
  let commit_author := branch.author_name.getD "Unknown"
  let commit_date := branch.author_date.getD "Unknown"
  let commit_message := pyFirstLine (branch.message.getD "No message")
  let date_display := branchDateDisplay parse fmt now commit_date
  let is_default := name = default_branch
  let pr_summary := (aLookup pr_map name).getD .null
  .obj [("name", .s name),
        ("is_default", .b is_default),
        ("commit", .obj [("sha", .s commit_sha),
                         ("author", .s commit_author),
                         ("date", date_display),
                         ("message", .s commit_message)]),
        ("pull_request", pr_summary)]

/-- `get_branch_status_overview` from `branches.py`, given the three HTTP
responses its client issues (in fetch order: branch list, repository
metadata, PR list).  `limit` only parameterizes the branch request. -/
def get_branch_status_overview (token : Option String)
    (parse : String → Option Int) (fmt : Int → String) (owner repo : String)
    (limit : Nat) (rBranches : RespOf (List BranchItem))
    (rRepo : RespOf RepoData) (rPrs : RespOf (List PrData)) (now : Int) :
    Report :=
  if !truthyS token then [("error", .s "⚠️ No GITHUB_TOKEN set in environment.")]
  else
    runTool "Exception occurred while fetching branch status" (do
      let branches ← fetch rBranches
      let repo_data ← fetch rRepo
      let default_branch := repo_data.default_branch.getD "main"
      let prs ← fetch rPrs
      if branches.isEmpty then
        return [("owner", .s owner),
                ("repo", .s repo),
                ("branches", .arr []),
                ("default_branch", .s default_branch),
                ("message", .s ("🌿 No branches found in " ++ owner ++ "/" ++ repo))]
      let pr_map := prs.foldl (fun acc pr =>
        if truthyS pr.head_ref then setKV (pr.head_ref.getD "") (prMapEntry pr) acc
        else acc) []
      let sorted_branches :=
        pySortedDesc boolStrLt (branchSortKey default_branch) branches
      let results :=
        sorted_branches.map (branchEntry parse fmt now default_branch pr_map)
      return [("owner", .s owner),
              ("repo", .s repo),
              ("default_branch", .s default_branch),
              ("total_branches", .i branches.length),
              ("branches", .arr results)])

/-- A top-level `/contents` listing entry (`.get("name", "")` /
`.get("type", "")`). -/
structure ContentItem : Type where
  name : String
  type : String
deriving DecidableEq

/-- The `{"score": …, "good": […], "issues": […]}` accumulator shared by the
health sub-checks. -/
structure CheckResult : Type where
  score : Nat
  good : List String
  issues : List String

/-- One loop iteration of a health sub-check: add `f i` points and append
the `g i` good-practice and `h i` issue lines. -/
def accStep {I : Type} (f : I → Nat) (g h : I → List String)
    (acc : CheckResult) (i : I) : CheckResult :=
  ⟨acc.score + f i, acc.good ++ g i, acc.issues ++ h i⟩

/-- Render a `CheckResult` as its report dict. -/
def checkObj (c : CheckResult) : JVal :=
  .obj [("score", .i c.score),
        ("good", .arr (c.good.map JVal.s)),
        ("issues", .arr (c.issues.map JVal.s))]

/-- `_check_readme`'s filename whitelist. -/
def readme_files : List String :=
  ["README.md", "readme.md", "README.txt", "readme.txt", "README.rst", "README"]

/-- `_check_readme` from `health.py` (first match wins). -/
def check_readme (contents : List ContentItem) : Report :=
  match contents.find? (fun item =>
      (readme_files.map String.toUpper).contains item.name.toUpper) with
  | some item => [("exists", .b true), ("file", .s item.name)]
  | none => [("exists", .b false)]

/-- `_check_license`'s filename whitelist. -/
def license_files : List String :=
  ["LICENSE", "LICENSE.md", "LICENSE.txt", "license", "license.md", "license.txt"]

/-- `_check_license` from `health.py`: API-detected license metadata first,
then a literal LICENSE-family filename. -/
def check_license (contents : List ContentItem) (repo_data : RepoData) :
    Report :=
  match repo_data.license with
  | some license_info =>
      [("exists", .b true), ("license", .s (license_info.name.getD "Unknown"))]
  | none =>
      match contents.find? (fun item => license_files.contains item.name) with
      | some _ => [("exists", .b true), ("license", .s "License file found")]
      | none => [("exists", .b false)]

/-- `_check_security_files`' filename whitelist (all labelled
"Security policy"). -/
def security_files : List String :=
  ["SECURITY.md", "security.md", ".github/SECURITY.md", "SECURITY.txt",
   "security.txt"]

/-- `_check_security_files` from `health.py`: 5 points per matching
filename. -/
def check_security_files (contents : List ContentItem) : CheckResult :=
  let loop := contents.foldl (accStep
    (fun i => if security_files.contains i.name then 5 else 0)
    (fun i => if security_files.contains i.name then
        ["✅ Security policy found: " ++ i.name] else [])
    (fun _ => [])) ⟨0, [], []⟩
  let found_security := contents.any (fun i => security_files.contains i.name)
  { loop with issues :=
      if !found_security then ["❌ Missing security policy (SECURITY.md)"] else [] }

/-- `_check_contribution_files`' filename → label dict. -/
def contrib_files : List (String × String) :=
  [("CONTRIBUTING.md", "Contributing guidelines"),
   ("contributing.md", "Contributing guidelines"),
   (".github/CONTRIBUTING.md", "Contributing guidelines"),
   ("CONTRIBUTING.txt", "Contributing guidelines"),
   ("CODE_OF_CONDUCT.md", "Code of conduct"),
   ("code_of_conduct.md", "Code of conduct"),
   (".github/CODE_OF_CONDUCT.md", "Code of conduct")]

/-- `_check_contribution_files` from `health.py`: 3 points per matching
filename; contributing guidelines and code of conduct are tracked (and
reported missing) independently. -/
def check_contribution_files (contents : List ContentItem) : CheckResult :=
  let loop := contents.foldl (accStep
    (fun i => if (aLookup contrib_files i.name).isSome then 3 else 0)
    (fun i => match aLookup contrib_files i.name with
      | some label => ["✅ " ++ label ++ " found: " ++ i.name]
      | none => [])
    (fun _ => [])) ⟨0, [], []⟩
  let found_contrib := contents.any (fun i =>
    (aLookup contrib_files i.name).isSome && pyInStr "CONTRIBUTING" i.name.toUpper)
  let found_conduct := contents.any (fun i =>
    (aLookup contrib_files i.name).isSome && !pyInStr "CONTRIBUTING" i.name.toUpper
      && pyInStr "CODE_OF_CONDUCT" i.name.toUpper)
  { loop with issues :=
      (if !found_contrib then
        ["⚠️ Missing contributing guidelines (CONTRIBUTING.md)"] else [])
      ++ (if !found_conduct then
        ["⚠️ Missing code of conduct (CODE_OF_CONDUCT.md)"] else []) }

/-- The CONTRIBUTING-family filenames of `contrib_files`. -/
def contributing_names : List String :=
  ["CONTRIBUTING.md", "contributing.md", ".github/CONTRIBUTING.md",
   "CONTRIBUTING.txt"]

/-- The CODE_OF_CONDUCT-family filenames of `contrib_files`. -/
def conduct_names : List String :=
  ["CODE_OF_CONDUCT.md", "code_of_conduct.md", ".github/CODE_OF_CONDUCT.md"]

/-- `_check_ci_cd`'s filename → label dict. -/
def ci_files : List (String × String) :=
  [(".github/workflows/", "GitHub Actions workflows"),
   (".travis.yml", "Travis CI"),
   (".circleci/", "CircleCI"),
   ("Jenkinsfile", "Jenkins"),
   (".gitlab-ci.yml", "GitLab CI"),
   ("azure-pipelines.yml", "Azure Pipelines"),
   (".github/workflows/ci.yml", "GitHub Actions CI"),
   (".github/workflows/test.yml", "GitHub Actions Tests")]

/-- `_check_ci_cd` from `health.py`: 8 points per matched CI filename, else
2 points for a bare `.github` directory entry. -/
def check_ci_cd (contents : List ContentItem) : CheckResult :=
  let loop := contents.foldl (accStep
    (fun i => if (aLookup ci_files i.name).isSome then 8
      else if i.type = "dir" && i.name = ".github" then 2 else 0)
    (fun i => match aLookup ci_files i.name with
      | some label => ["✅ " ++ label ++ " found: " ++ i.name]
      | none => if i.type = "dir" && i.name = ".github" then
          ["✅ .github directory found"] else [])
    (fun _ => [])) ⟨0, [], []⟩
  let found_ci := contents.any (fun i => (aLookup ci_files i.name).isSome)
  { loop with issues :=
      if !found_ci then ["⚠️ No CI/CD configuration found"] else [] }

/-- `_check_dependencies`' manifest filename → label dict. -/
def dependency_files : List (String × String) :=
  [("package.json", "Node.js dependencies"),
   ("requirements.txt", "Python dependencies"),
   ("Pipfile", "Python Pipenv dependencies"),
   ("poetry.lock", "Python Poetry dependencies"),
   ("Gemfile", "Ruby dependencies"),
   ("pom.xml", "Maven dependencies"),
   ("build.gradle", "Gradle dependencies"),
   ("Cargo.toml", "Rust dependencies"),
   ("go.mod", "Go dependencies"),
   ("composer.json", "PHP dependencies")]

/-- The manifest → lock-file pairing of `_check_dependencies`. -/
def lockFileFor (name : String) : Option String :=
  if name = "package.json" then some "package-lock.json"
  else if name = "Pipfile" then some "Pipfile.lock"
  else if name = "Gemfile" then some "Gemfile.lock"
  else if name = "composer.json" then some "composer.lock"
  else none

/-- `_check_dependencies` from `health.py`: 5 points per matched manifest,
+2 when its lock file is also anywhere in the listing, else a missing-lock
issue. -/
def check_dependencies (contents : List ContentItem) : CheckResult :=
  let lockFound := fun lf => contents.any (fun item => item.name = lf)
  let loop := contents.foldl (accStep
    (fun i => if (aLookup dependency_files i.name).isSome then
        5 + (match lockFileFor i.name with
             | some lf => if lockFound lf then 2 else 0
             | none => 0)
      else 0)
    (fun i => match aLookup dependency_files i.name with
      | some label =>
          ("✅ " ++ label ++ " found: " ++ i.name) ::
          (match lockFileFor i.name with
           | some lf => if lockFound lf then ["✅ Lock file found: " ++ lf] else []
           | none => [])
      | none => [])
    (fun i => if (aLookup dependency_files i.name).isSome then
        (match lockFileFor i.name with
         | some lf => if lockFound lf then [] else ["⚠️ Missing lock file: " ++ lf]
         | none => [])
      else [])) ⟨0, [], []⟩
  let found_deps := contents.any (fun i => (aLookup dependency_files i.name).isSome)
  { loop with issues :=
      loop.issues ++ (if !found_deps then ["ℹ️ No dependency files detected"] else []) }

/-- `_check_repository_settings` from `health.py`. -/
def check_repository_settings (repo_data : RepoData) : CheckResult :=
  let acc : CheckResult :=
    if repo_data.has_issues then ⟨3, ["Issues are enabled"], []⟩
    else ⟨0, [], ["Issues are disabled"]⟩
  let acc := if repo_data.has_wiki then
      { acc with score := acc.score + 2, good := acc.good ++ ["Wiki is enabled"] }
    else acc
  let acc := if repo_data.has_projects then
      { acc with score := acc.score + 2, good := acc.good ++ ["Projects are enabled"] }
    else acc
  let topics := repo_data.topics
  let acc := if !topics.isEmpty then
      { acc with
        score := acc.score + 5
        good := acc.good ++ [String.append "Repository has topics: "
          (String.append (String.intercalate ", " (topics.take 3))
            (if topics.length > 3 then "..." else ""))] }
    else { acc with issues := acc.issues ++ ["No topics set for repository"] }
  let acc := if repo_data.archived then
      { acc with issues := acc.issues ++ ["Repository is archived"] } else acc
  if repo_data.fork then
    { acc with issues := acc.issues ++ ["Repository is a fork"] } else acc

/-- `_check_repository_settings`'s report dict (the one check that also
echoes the topic list). -/
def settingsObj (c : CheckResult) (topics : List String) : JVal :=
  .obj [("score", .i c.score),
        ("good", .arr (c.good.map JVal.s)),
        ("issues", .arr (c.issues.map JVal.s)),
        ("topics", .arr (topics.map JVal.s))]

/-- The `health_score` accumulated by `check_repository_health` (named so
theorems can speak about it; the accumulation order is the source's). -/
def healthScoreOf (repo_data : RepoData) (contents : List ContentItem)
    (days_since_update : Option Int) : Nat :=
  let descScore : Nat := if truthyS repo_data.description then 10 else 0
  let updScore : Nat := match days_since_update with
    | some d => if d ≤ 30 then 10 else if d ≤ 90 then 5 else 0
    | none => 0
  let readme_exists := match rLookup (check_readme contents) "exists" with
    | some (JVal.b v) => v
    | _ => false
  let license_exists :=
    match rLookup (check_license contents repo_data) "exists" with
    | some (JVal.b v) => v
    | _ => false
  let readmeScore : Nat := if readme_exists then 15 else 0
  let licenseScore : Nat := if license_exists then 10 else 0
  descScore + updScore + readmeScore + licenseScore
    + (check_security_files contents).score
    + (check_contribution_files contents).score
    + (check_ci_cd contents).score
    + (check_dependencies contents).score
    + (check_repository_settings repo_data).score

/-- `min(100, (health_score / max_score) * 100)`. -/
def healthPercentageOf (repo_data : RepoData) (contents : List ContentItem)
    (days_since_update : Option Int) : ℚ :=
  min 100 ((healthScoreOf repo_data contents days_since_update : ℚ) / 100 * 100)

/-- The status label thresholds of `check_repository_health`. -/
def healthStatusOf (health_percentage : ℚ) : String :=
  if health_percentage ≥ 90 then "Excellent"
  else if health_percentage ≥ 70 then "Good"
  else if health_percentage ≥ 50 then "Needs Improvement"
  else "Poor"

/-- The pure tail of `check_repository_health`: everything after the
`days_since_update` computation (the only step of the body that can raise),
verbatim from `health.py`. -/
def healthReportCore (owner repo : String) (repo_data : RepoData)
    (contents : List ContentItem) (days_since_update : Option Int) : Report :=
  let description := repo_data.description
  let descGood := if truthyS description then ["Repository has a description"] else []
  let descIssues := if truthyS description then [] else ["Missing repository description"]
  let updGood := match days_since_update with
    | some d => if d ≤ 30 then ["Recently updated (within 30 days)"]
        else if d ≤ 90 then ["Updated within 90 days"] else []
    | none => []
  let updIssues := match days_since_update with
    | some d => if d ≤ 30 then [] else if d ≤ 90 then []
        else ["Not updated in " ++ toString d ++ " days"]
    | none => []
  let readme_check := check_readme contents
  let license_check := check_license contents repo_data
  let security_check := check_security_files contents
  let contrib_check := check_contribution_files contents
  let ci_check := check_ci_cd contents
  let deps_check := check_dependencies contents
  let settings_check := check_repository_settings repo_data
  let readme_exists := match rLookup readme_check "exists" with
    | some (JVal.b v) => v
    | _ => false
  let license_exists := match rLookup license_check "exists" with
    | some (JVal.b v) => v
    | _ => false
  let readmeGood := if readme_exists then
      ["README found: " ++ (match rLookup readme_check "file" with
        | some (JVal.s f) => f
        | _ => "")] else []
  let readmeIssues := if readme_exists then [] else ["Missing README file"]
  let licenseGood := if license_exists then
      ["License found: " ++ (match rLookup license_check "license" with
        | some (JVal.s l) => l
        | _ => "")] else []
  let licenseIssues := if license_exists then [] else ["Missing LICENSE file"]
  let good_practices := descGood ++ updGood ++ readmeGood ++ licenseGood
    ++ security_check.good ++ contrib_check.good ++ ci_check.good
    ++ deps_check.good ++ settings_check.good
  let issues := descIssues ++ updIssues ++ readmeIssues ++ licenseIssues
    ++ security_check.issues ++ contrib_check.issues ++ ci_check.issues
    ++ deps_check.issues ++ settings_check.issues
  let health_percentage : ℚ :=
    healthPercentageOf repo_data contents days_since_update
  let status : String := healthStatusOf health_percentage
  let recommendations :=
    (if health_percentage < 90 then
      ["Address the issues listed to improve health"] else [])
    ++ (if !good_practices.any (fun p => pyInStr "README" p) then
      ["Add a comprehensive README with setup instructions"] else [])
    ++ (if !good_practices.any (fun p => pyInStr "License" p) then
      ["Add a LICENSE file to clarify usage rights"] else [])
    ++ (if !good_practices.any (fun p => pyInStr "security" p.toLower) then
      ["Add security policies (SECURITY.md)"] else [])
    ++ (if !good_practices.any (fun p => pyInStr "CI/CD" p) then
      ["Set up CI/CD workflows and automated testing"] else [])
  [("owner", .s owner),
   ("repo", .s repo),
   ("health_score", .q (pyRound health_percentage 1)),
   ("status", .s status),
   ("description", optS description),
   ("days_since_update", optI days_since_update),
   ("good_practices", .arr (good_practices.map JVal.s)),
   ("issues", .arr (issues.map JVal.s)),
   ("recommendations", .arr (recommendations.map JVal.s)),
   ("details", .obj [
     ("readme", .obj readme_check),
     ("license", .obj license_check),
     ("ci_cd", checkObj ci_check),
     ("security", checkObj security_check),
     ("contribution", checkObj contrib_check),
     ("dependencies", checkObj deps_check),
     ("settings", settingsObj settings_check repo_data.topics)])]

/-- `check_repository_health` from `health.py`, given the three HTTP
responses its client issues (repo metadata, contents listing, community
profile).  None of these calls `raise_for_status`: the decoded bodies are
used whatever the status, and a non-200 community profile just yields `{}`
(the community profile is in fact never read afterwards). -/
def check_repository_health (token : Option String)
    (parse : String → Option Int) (owner repo : String)
    (rRepo : RespOf RepoData) (rContents : RespOf (List ContentItem))
    (rCommunity : RespOf JVal) (now : Int) : Report :=
  if !truthyS token then [("error", .s "⚠️ No GITHUB_TOKEN set in environment.")]
  else
    runTool "Exception occurred while checking repository health" (do
      let repo_data := rRepo.body
      let contents := rContents.body
      let _community_profile :=
        if rCommunity.status = 200 then rCommunity.body else JVal.obj []
      let days_since_update ← (
        if truthyS repo_data.updated_at then do
          let t ← eventTs parse (repo_data.updated_at.getD "")
          pure (some (daysBetween now t))
        else pure none)
      return healthReportCore owner repo repo_data contents days_since_update)

/-- `None`-aware JSON rendering of an optional bool. -/
def optB : Option Bool → JVal
  | none => .null
  | some v => .b v

/-- `d.get(k, 0)` on a report when an int is expected. -/
def getIntR (r : Report) (k : String) (d : Int) : Int :=
  match rLookup r k with
  | some (JVal.i n) => n
  | _ => d

/-- `d.get(k, "")`-style string read on a report. -/
def getStrR (r : Report) (k : String) (d : String) : String :=
  match rLookup r k with
  | some (JVal.s v) => v
  | _ => d

/-- `d.get(k, {})` on a report. -/
def getObjR (r : Report) (k : String) : List (String × JVal) :=
  match rLookup r k with
  | some (JVal.obj l) => l
  | _ => []

/-- `d.get(k, [])` on a report. -/
def getArrR (r : Report) (k : String) : List JVal :=
  match rLookup r k with
  | some (JVal.arr l) => l
  | _ => []

/-- A `/pulls/{n}/files` entry. -/
structure FileChange : Type where
  filename : String
  additions : Int
  deletions : Int
  changes : Int
  status : String

/-- A `/pulls/{n}/commits` entry (nested fields flattened; defaults applied
at use sites as in the source). -/
structure PrCommit : Type where
  sha : Option String
  message : String
  author_name : Option String
  author_date : Option String
  html_url : Option String

/-- A `/pulls/{n}/reviews` entry. -/
structure Review : Type where
  id : Option Int
  state : String
  user_login : Option String
  body : String
  submitted_at : Option String
  html_url : Option String

/-- A `/pulls/{n}/comments` entry. -/
structure CommentData : Type where
  id : Option Int
  body : String
  user_login : Option String
  created_at : Option String
  path : Option String
  line : Option Int
  html_url : Option String

/-- `_detect_language`'s extension → language table. -/
def ext_map : List (String × String) :=
  [("py", "Python"), ("js", "JavaScript"), ("ts", "TypeScript"),
   ("java", "Java"), ("cpp", "C++"), ("c", "C"), ("cs", "C#"),
   ("php", "PHP"), ("rb", "Ruby"), ("go", "Go"), ("rs", "Rust"),
   ("swift", "Swift"), ("kt", "Kotlin"), ("html", "HTML"), ("css", "CSS"),
   ("scss", "SCSS"), ("sass", "Sass"), ("json", "JSON"), ("xml", "XML"),
   ("yaml", "YAML"), ("yml", "YAML"), ("md", "Markdown"), ("sh", "Shell"),
   ("sql", "SQL")]

/-- `filename.split(".")[-1].lower()`. -/
def extOf (filename : String) : String :=
  ((filename.splitOn ".").getLastD "").toLower

/-- `_detect_language` from `pr_reviews.py`. -/
def detect_language (filename : String) : String :=
  if pyInStr "." filename then (aLookup ext_map (extOf filename)).getD "Unknown"
  else "Unknown"

/-- `_analyze_file_changes` from `pr_reviews.py`. -/
def analyze_file_changes (files_data : List FileChange) : Report :=
  if files_data.isEmpty then [("total_files", .i 0), ("changes", .arr [])]
  else
    let total_additions := (files_data.map (fun f => f.additions)).sum
    let total_deletions := (files_data.map (fun f => f.deletions)).sum
    let file_types := files_data.foldl (fun acc f =>
      if pyInStr "." f.filename then bump (extOf f.filename) acc else acc) []
    let languages := files_data.foldl (fun acc f =>
      let language := detect_language f.filename
      if language ≠ "" then bump language acc else acc) []
    let large_files := files_data.filter (fun f => f.changes > 100)
    [("total_files", .i files_data.length),
     ("total_additions", .i total_additions),
     ("total_deletions", .i total_deletions),
     ("net_changes", .i (total_additions - total_deletions)),
     ("file_types", .obj (file_types.map (fun p => (p.1, JVal.i p.2)))),
     ("languages", .obj (languages.map (fun p => (p.1, JVal.i p.2)))),
     ("large_files", .arr (large_files.map (fun f =>
        .obj [("filename", .s f.filename),
              ("changes", .i f.changes),
              ("status", .s f.status)]))),
     ("changes", .arr (files_data.map (fun f =>
        .obj [("filename", .s f.filename),
              ("status", .s f.status),
              ("additions", .i f.additions),
              ("deletions", .i f.deletions),
              ("changes", .i f.changes),
              ("language", .s (detect_language f.filename))])))]

/-- `_analyze_commits` from `pr_reviews.py`. -/
def analyze_commits (commits_data : List PrCommit) : Report :=
  if commits_data.isEmpty then [("total_commits", .i 0), ("commits", .arr [])]
  else
    let authors := countBy (fun c => c.author_name.getD "Unknown") commits_data
    [("total_commits", .i commits_data.length),
     ("unique_authors", .i authors.length),
     ("authors", .obj (authors.map (fun p => (p.1, JVal.i p.2)))),
     ("commits", .arr (commits_data.map (fun c =>
        .obj [("sha", .s ((c.sha.getD "").take 7)),
              ("message", .s (pyFirstLine c.message)),
              ("author", .s (c.author_name.getD "Unknown")),
              ("date", optS c.author_date),
              ("url", optS c.html_url)])))]

/-- `_analyze_reviews` from `pr_reviews.py`. -/
def analyze_reviews (reviews_data : List Review) : Report :=
  if reviews_data.isEmpty then [("total_reviews", .i 0), ("reviews", .arr [])]
  else
    let review_states := countBy (fun r => r.state) reviews_data
    let reviewers := countBy (fun r => r.user_login.getD "Unknown") reviews_data
    [("total_reviews", .i reviews_data.length),
     ("review_states", .obj (review_states.map (fun p => (p.1, JVal.i p.2)))),
     ("reviewers", .obj (reviewers.map (fun p => (p.1, JVal.i p.2)))),
     ("reviews", .arr (reviews_data.map (fun r =>
        .obj [("id", optI r.id),
              ("state", .s r.state),
              ("reviewer", .s (r.user_login.getD "Unknown")),
              ("body", .s r.body),
              ("submitted_at", optS r.submitted_at),
              ("url", optS r.html_url)])))]

/-- `_analyze_comments` from `pr_reviews.py`. -/
def analyze_comments (comments_data : List CommentData) : Report :=
  if comments_data.isEmpty then [("total_comments", .i 0), ("comments", .arr [])]
  else
    let commenters := countBy (fun c => c.user_login.getD "Unknown") comments_data
    [("total_comments", .i comments_data.length),
     ("commenters", .obj (commenters.map (fun p => (p.1, JVal.i p.2)))),
     ("comments", .arr (comments_data.map (fun c =>
        .obj [("id", optI c.id),
              ("body", .s c.body),
              ("author", .s (c.user_login.getD "Unknown")),
              ("created_at", optS c.created_at),
              ("path", optS c.path),
              ("line", optI c.line),
              ("url", optS c.html_url)])))]

/-- `_calculate_complexity_score` from `pr_reviews.py`: reads the already
assembled `file_changes`/`commits` sections dynamically, as the source
does. -/
def calculate_complexity_score (file_analysis commit_analysis : Report) :
    Report :=
  let file_count := getIntR file_analysis "total_files" 0
  let fileScore : Int := if file_count > 20 then 30
    else if file_count > 10 then 15 else 0
  let fileFactors := if file_count > 20 then ["High file count"]
    else if file_count > 10 then ["Moderate file count"] else []
  let total_changes := getIntR file_analysis "total_additions" 0
    + getIntR file_analysis "total_deletions" 0
  let changeScore : Int := if total_changes > 1000 then 40
    else if total_changes > 500 then 20 else 0
  let changeFactors := if total_changes > 1000 then ["Large number of changes"]
    else if total_changes > 500 then ["Moderate number of changes"] else []
  let lang_count := (getObjR file_analysis "languages").length
  let langScore : Int := if lang_count > 3 then 15 else 0
  let langFactors := if lang_count > 3 then ["Multiple languages"] else []
  let large_files := (getArrR file_analysis "large_files").length
  let largeScore : Int := if large_files > 0 then 15 else 0
  let largeFactors := if large_files > 0 then ["Large file changes"] else []
  let commit_count := getIntR commit_analysis "total_commits" 0
  let commitScore : Int := if commit_count > 10 then 10 else 0
  let commitFactors := if commit_count > 10 then ["Many commits"] else []
  let score := fileScore + changeScore + langScore + largeScore + commitScore
  let factors := fileFactors ++ changeFactors ++ langFactors ++ largeFactors
    ++ commitFactors
  [("score", .i (min score 100)),
   ("level", .s (if score > 70 then "High"
     else if score > 30 then "Medium" else "Low")),
   ("factors", .arr (factors.map JVal.s))]

/-- `states.get(k, 0)` on a decoded counts dict. -/
def getIntA (l : List (String × JVal)) (k : String) (d : Int) : Int :=
  match aLookup l k with
  | some (JVal.i n) => n
  | _ => d

/-- `_assess_review_status` from `pr_reviews.py`. -/
def assess_review_status (review_analysis : Report) : Report :=
  let states := getObjR review_analysis "review_states"
  let total_reviews := getIntR review_analysis "total_reviews" 0
  let approved := getIntA states "APPROVED" 0
  let changes_requested := getIntA states "CHANGES_REQUESTED" 0
  let commented := getIntA states "COMMENTED" 0
  let status :=
    if approved > 0 && changes_requested = 0 then "Ready to merge"
    else if changes_requested > 0 then "Changes requested"
    else if total_reviews > 0 then "Under review"
    else "Awaiting review"
  [("status", .s status),
   ("approved_count", .i approved),
   ("changes_requested_count", .i changes_requested),
   ("comment_count", .i commented),
   ("total_reviews", .i total_reviews)]

/-- `_identify_risk_factors` from `pr_reviews.py`. -/
def identify_risk_factors (pr_info file_analysis commit_analysis : Report) :
    List String :=
  (if getIntR file_analysis "total_files" 0 > 20 then
    ["Large PR - consider breaking into smaller PRs"] else [])
  ++ (if (getObjR file_analysis "languages").length > 3 then
    ["Multiple languages modified - ensure consistent changes"] else [])
  ++ (if !(getArrR file_analysis "large_files").isEmpty then
    ["Large files modified - review carefully for maintainability"] else [])
  ++ (if (getStrR pr_info "description" "").trim = "" then
    ["No PR description - add context for reviewers"] else [])
  ++ (if getIntR commit_analysis "total_commits" 0 > 15 then
    ["Many commits - consider squashing"] else [])
  ++ (match rLookup pr_info "mergeable" with
    | some (JVal.b false) => ["PR has merge conflicts - resolve before merging"]
    | _ => [])

/-- `_generate_recommendations` from `pr_reviews.py`. -/
def generate_recommendations
    (pr_info file_analysis commit_analysis review_analysis : Report) :
    List String :=
  let test_files := (getArrR file_analysis "changes").filter (fun c =>
    match c with
    | JVal.obj kvs => pyInStr "test" ((match aLookup kvs "filename" with
        | some (JVal.s f) => f
        | _ => "").toLower)
    | _ => false)
  (if getIntR review_analysis "total_reviews" 0 = 0 then
    ["Request reviews from relevant team members"] else [])
  ++ (if (getStrR pr_info "description" "").trim = "" then
    ["Add detailed PR description explaining changes"] else [])
  ++ (if test_files.isEmpty && getIntR file_analysis "total_files" 0 > 0 then
    ["Consider adding tests for new functionality"] else [])
  ++ (if getIntR file_analysis "total_files" 0 > 20 then
    ["Consider breaking large PR into smaller, focused PRs"] else [])
  ++ (if getIntR commit_analysis "total_commits" 0 > 10 then
    ["Consider squashing commits for cleaner history"] else [])

/-- `_generate_insights` from `pr_reviews.py`. -/
def generate_insights
    (pr_info file_analysis commit_analysis review_analysis : Report) : Report :=
  [("complexity_score", .obj (calculate_complexity_score file_analysis commit_analysis)),
   ("review_status", .obj (assess_review_status review_analysis)),
   ("risk_factors", .arr ((identify_risk_factors pr_info file_analysis
      commit_analysis).map JVal.s)),
   ("recommendations", .arr ((generate_recommendations pr_info file_analysis
      commit_analysis review_analysis).map JVal.s))]

/-- `_analyze_pr_data` from `pr_reviews.py`. -/
def analyze_pr_data (pr_data : PrData) (files_data : List FileChange)
    (commits_data : List PrCommit) (reviews_data : List Review)
    (comments_data : List CommentData) : Report :=
  let pr_info : Report :=
    [("number", optI pr_data.number),
     ("title", optS pr_data.title),
     ("state", optS pr_data.state),
     ("merged", .b pr_data.merged),
     ("mergeable", optB pr_data.mergeable),
     ("author", optS pr_data.user_login),
     ("created_at", optS pr_data.created_at),
     ("updated_at", optS pr_data.updated_at),
     ("base_branch", optS pr_data.base_ref),
     ("head_branch", optS pr_data.head_ref),
     ("url", optS pr_data.html_url),
     ("description", .s pr_data.body)]
  let file_analysis := analyze_file_changes files_data
  let commit_analysis := analyze_commits commits_data
  let review_analysis := analyze_reviews reviews_data
  let comment_analysis := analyze_comments comments_data
  let insights := generate_insights pr_info file_analysis commit_analysis
    review_analysis
  [("pr_info", .obj pr_info),
   ("file_changes", .obj file_analysis),
   ("commits", .obj commit_analysis),
   ("reviews", .obj review_analysis),
   ("comments", .obj comment_analysis),
   ("insights", .obj insights)]

/-- `get_pr_review_summary` from `pr_reviews.py`, given the five HTTP
responses its client issues (in fetch order: PR, files, commits, reviews,
comments). -/
def get_pr_review_summary (token : Option String) (rPr : RespOf PrData)
    (rFiles : RespOf (List FileChange)) (rCommits : RespOf (List PrCommit))
    (rReviews : RespOf (List Review)) (rComments : RespOf (List CommentData)) :
    Report :=
  if !truthyS token then [("error", .s "⚠️ No GITHUB_TOKEN set in environment.")]
  else
    runTool "Exception occurred while fetching PR data" (do
      let pr_data ← fetch rPr
      let files_data ← fetch rFiles
      let commits_data ← fetch rCommits
      let reviews_data ← fetch rReviews
      let comments_data ← fetch rComments
      return analyze_pr_data pr_data files_data commits_data reviews_data
        comments_data)

/-- `len()` applied to a decoded JSON value (dict, list or string). -/
def pyLen : JVal → Except PyExn Int
  | .obj kvs => .ok kvs.length
  | .iobj kvs => .ok kvs.length
  | .arr vs => .ok vs.length
  | .s v => .ok v.length
  | _ => .error (.valueError "object has no len()")

/-- `pkg in v` for a decoded JSON value: key membership on dicts, element
membership on lists, substring on strings. -/
def pyIn (pkg : String) : JVal → Bool
  | .obj kvs => kvs.any (fun p => p.1 = pkg)
  | .arr vs => vs.any (fun v => match v with
      | JVal.s x => x = pkg
      | _ => false)
  | .s v => pyInStr pkg v
  | _ => false

/-- `data.get(k, {})`, raising `AttributeError` on a non-dict receiver. -/
def jGetDict (data : JVal) (k : String) : Except PyExn JVal :=
  match data with
  | .obj kvs => .ok ((aLookup kvs k).getD (.obj []))
  | _ => .error (.valueError "AttributeError: no attribute get")

/-- The security-package watchlist of `_analyze_package_json_json`. -/
def security_packages : List String :=
  ["helmet", "cors", "express-rate-limit", "bcrypt", "jsonwebtoken"]

/-- The test-framework watchlist of `_analyze_package_json_json`. -/
def test_packages : List String :=
  ["jest", "mocha", "chai", "cypress", "testing-library"]

/-- `_analyze_package_json_json` from `health.py`; the input is the
`json.loads` result (`none` when that raises `JSONDecodeError`, which the
source catches and converts into an error value). -/
def analyze_package_json_json (content : Option JVal) :
    Except PyExn Report := do
  match content with
  | none => return [("error", .s "Invalid JSON in package.json")]
  | some data =>
    let dependencies ← jGetDict data "dependencies"
    let dev_dependencies ← jGetDict data "devDependencies"
    let found_security := security_packages.filter (fun pkg => pyIn pkg dependencies)
    let found_testing := test_packages.filter (fun pkg =>
      pyIn pkg dev_dependencies || test_packages.any (fun t => pyInStr t pkg))
    let nDeps ← pyLen dependencies
    let nDev ← pyLen dev_dependencies
    return [("type", .s "node"),
            ("dependencies_count", .i nDeps),
            ("dev_dependencies_count", .i nDev),
            ("security_packages", .arr (found_security.map JVal.s)),
            ("testing_frameworks", .arr (found_testing.map JVal.s))]

/-! ### Concrete fixtures used by witnesses and counterexamples -/

/-- A concrete instantiation of the abstract ISO-8601 parser: epoch seconds
for a handful of timestamps, `none` (→ `ValueError`) elsewhere. -/
def demoParse : String → Option Int := fun s =>
  if s = "2024-01-09T10:00:00Z" then some 1704794400
  else if s = "2024-01-08T10:00:00Z" then some 1704708000
  else if s = "2024-01-04T10:00:00Z" then some 1704362400
  else if s = "2024-01-10T00:00:00Z" then some 1704844800
  else none

/-- A concrete `strftime("%Y-%m-%d %H:%M")` stand-in. -/
def demoFmt : Int → String := fun t => "ts-" ++ toString t

/-- A concrete `strftime("%Y-%m-%d")` stand-in on day numbers. -/
def demoFmtDay : Int → String := fun d => "day-" ++ toString d

/-- Repository metadata with every optional field absent and every flag
off. -/
def emptyRepoData : RepoData :=
  ⟨none, none, none, 0, 0, 0, 0, none, none, none, false, false, false, [],
   false, false, none⟩

/-- Repository metadata whose default branch is `main`. -/
def mainRepoData : RepoData := { emptyRepoData with default_branch := some "main" }

/-- Three branches: the default `main` (newest head commit) and two feature
branches dated one and five days earlier. -/
def sampleBranches : List BranchItem :=
  [⟨some "main", some "aaaaaaa1111", some "Alice", some "2024-01-09T10:00:00Z",
    some "tip of main"⟩,
   ⟨some "feat1", some "bbbbbbb2222", some "Bob", some "2024-01-08T10:00:00Z",
    some "feature one"⟩,
   ⟨some "feat2", some "ccccccc3333", some "Carol", some "2024-01-04T10:00:00Z",
    some "feature two"⟩]

/-- The branch names of a branch-overview report, in report order. -/
def reportBranchNames (r : Report) : List JVal :=
  match rLookup r "branches" with
  | some (JVal.arr bs) => bs.filterMap (fun b => match b with
      | JVal.obj kvs => aLookup kvs "name"
      | _ => none)
  | _ => []

/-- The PR-complexity inputs of the spec scenario: 25 files, 800 additions,
300 deletions, four languages, one large file. -/
def scenarioFileAnalysis : Report :=
  [("total_files", .i 25),
   ("total_additions", .i 800),
   ("total_deletions", .i 300),
   ("languages", .obj [("Python", .i 1), ("JavaScript", .i 1), ("Go", .i 1),
     ("Rust", .i 1)]),
   ("large_files", .arr [.obj [("filename", .s "big.py"), ("changes", .i 150),
     ("status", .s "modified")]])]

/-- The commit section of the spec scenario: 12 commits. -/
def scenarioCommitAnalysis : Report := [("total_commits", .i 12)]

/-- The runtime dependencies of the C8 witness manifest. -/
def pkgDeps : List (String × JVal) :=
  [("express", .s "^4.18.0"), ("helmet", .s "^7.0.0")]

/-- The dev dependencies of the C8 witness manifest. -/
def pkgDevs : List (String × JVal) := [("jest", .s "^29.0.0")]

/-- The C8 witness manifest (already decoded). -/
def pkgManifest : List (String × JVal) :=
  [("name", .s "demo"), ("dependencies", .obj pkgDeps),
   ("devDependencies", .obj pkgDevs)]

/-- An issue list with one well-formed and one unparseable timestamp. -/
def mixedIssues : List Issue :=
  [⟨false, some "2024-01-08T10:00:00Z", some "open"⟩,
   ⟨false, some "not-a-date", some "open"⟩]

/-- Two parseable push events on consecutive days (C6 witness input). -/
def c6Events : List Event :=
  [⟨some "PushEvent", some "2024-01-08T10:00:00Z", some "acme/widgets"⟩,
   ⟨some "PushEvent", some "2024-01-09T10:00:00Z", some "acme/widgets"⟩]

/-- A single parseable non-PR issue (C4 witness input). -/
def goodIssues : List Issue := [⟨false, some "2024-01-08T10:00:00Z", some "open"⟩]

/-- The run of consecutive calendar days `a, a+1, …, a+n-1`. -/
def consecFrom (a : Int) : Nat → List Int
  | 0 => []
  | n + 1 => a :: consecFrom (a + 1) n

/-- A three-day gap-free activity dict ending on day 19733 (C7 witness). -/
def streakDaily : List (Int × Nat) := [(19731, 2), (19732, 1), (19733, 5)]

/-- The failure report every aggregator builds from an
`httpx.HTTPStatusError`: exactly an "error" line with the status code and a
"details" line with the raw response body — nothing else. -/
def httpErrorReport (status : Nat) (text : String) : Report :=
  [("error", .s ("HTTP error " ++ toString status)), ("details", .s text)]

/-- A user profile payload with everything absent (C5 witness filler). -/
def emptyUserData : UserData :=
  ⟨none, none, none, none, none, none, 0, 0, 0, 0, none, none⟩

/-- A PR payload with everything absent (C5 witness filler). -/
def emptyPrData : PrData :=
  ⟨none, none, none, false, none, none, none, none, none, none, none, ""⟩

/-- A contents listing with README, LICENSE, security, contributing,
code-of-conduct, one CI config, and one manifest plus its lock file (the C3
scenario). -/
def healthyContents : List ContentItem :=
  [⟨"README.md", "file"⟩, ⟨"LICENSE", "file"⟩, ⟨"SECURITY.md", "file"⟩,
   ⟨"CONTRIBUTING.md", "file"⟩, ⟨"CODE_OF_CONDUCT.md", "file"⟩,
   ⟨".travis.yml", "file"⟩, ⟨"package.json", "file"⟩,
   ⟨"package-lock.json", "file"⟩]

/-- Repository metadata with a description, detected license, all settings
enabled and topics set (the C3 scenario; never updated). -/
def healthyRepoData : RepoData :=
  { emptyRepoData with
    description := some "A demo repository"
    license := some ⟨some "MIT License"⟩
    has_issues := true
    has_wiki := true
    has_projects := true
    topics := ["tools", "github"] }

/-! ### C9 -/

/-- C9: on empty input collections the analyzers degenerate to single-key
zero-total dicts — `_analyze_user_repositories [] = {"total_repos": 0}`,
`_analyze_user_activity` on an empty event list returns exactly
`{"total_events": 0}`, and `_analyze_contributors [] =
{"total_contributors": 0}` — with no other keys. -/
theorem empty_inputs_single_key_sections (parse : String → Option Int)
    (fmtDay : Int → String) (days : Nat) (now : Int) :
    analyze_user_repositories [] = [("total_repos", JVal.i 0)] ∧
    analyze_user_activity parse fmtDay [] days now
      = .ok [("total_events", JVal.i 0)] ∧
    analyze_contributors [] = [("total_contributors", JVal.i 0)] :=
  ⟨rfl, rfl, rfl⟩

/-! ### C2 -/

/-- C2 (counterexample): on the spec scenario input the complexity score is
100, not 90 — the 1100 changed lines exceed the 1000 threshold and add 40
points, not 20. -/
theorem complexity_score_scenario_not_90 :
    rLookup (calculate_complexity_score scenarioFileAnalysis scenarioCommitAnalysis)
      "score" = some (JVal.i 100) ∧
    rLookup (calculate_complexity_score scenarioFileAnalysis scenarioCommitAnalysis)
      "score" ≠ some (JVal.i 90) := by
  have h : rLookup (calculate_complexity_score scenarioFileAnalysis
      scenarioCommitAnalysis) "score" = some (JVal.i 100) := rfl
  refine ⟨h, ?_⟩
  intro hbad
  rw [h] at hbad
  injection hbad with h1
  injection h1 with h2
  omega

/-- C2 (amended): the scenario input {25 files, 800 additions, 300
deletions, four languages, one large file, 12 commits} yields complexity
score exactly 100 (30 + 40 + 15 + 15 + 10 = 110, clamped) and level
"High". -/
theorem complexity_score_scenario_value :
    rLookup (calculate_complexity_score scenarioFileAnalysis scenarioCommitAnalysis)
      "score" = some (JVal.i 100) ∧
    rLookup (calculate_complexity_score scenarioFileAnalysis scenarioCommitAnalysis)
      "level" = some (JVal.s "High") :=
  ⟨rfl, rfl⟩

/-! ### C1 -/

/-- C1: evaluating `get_branch_status_overview` on a repository whose
default branch `main` has the newest head commit and whose feature branches
are dated one and five days earlier places the default branch last, not
first: the `reverse=True` sort on the key `(name != default_branch, date)`
puts the `True` tuples — every non-default branch — ahead of the default
branch, contradicting the function's own "default first" comment. -/
theorem branch_overview_default_branch_last :
    reportBranchNames (get_branch_status_overview (some "token") demoParse
      demoFmt "acme" "widgets" 10 ⟨200, sampleBranches, ""⟩
      ⟨200, mainRepoData, ""⟩ ⟨200, ([] : List PrData), ""⟩ 1704844800)
      = [JVal.s "feat1", JVal.s "feat2", JVal.s "main"] := by
  with_unfolding_all rfl

/-! ### C10 -/

/-- C10: when the token is configured and all three fetches succeed but the
branch list is empty, `get_branch_status_overview` returns the success-shaped
report — owner, repo, empty `branches`, the resolved default branch and a
human-readable message — with no "error" key. -/
theorem branch_overview_empty_is_success (token : Option String)
    (parse : String → Option Int) (fmt : Int → String) (owner repo : String)
    (limit : Nat) (rBranches : RespOf (List BranchItem))
    (rRepo : RespOf RepoData) (rPrs : RespOf (List PrData)) (now : Int)
    (htok : truthyS token = true) (hB : is2xx rBranches.status = true)
    (hBody : rBranches.body = []) (hR : is2xx rRepo.status = true)
    (hP : is2xx rPrs.status = true) :
    get_branch_status_overview token parse fmt owner repo limit rBranches
        rRepo rPrs now
      = [("owner", .s owner), ("repo", .s repo), ("branches", .arr []),
         ("default_branch", .s (rRepo.body.default_branch.getD "main")),
         ("message", .s ("🌿 No branches found in " ++ owner ++ "/" ++ repo))] ∧
    rLookup (get_branch_status_overview token parse fmt owner repo limit
        rBranches rRepo rPrs now) "error" = none := by
  have hmain : get_branch_status_overview token parse fmt owner repo limit
      rBranches rRepo rPrs now
      = [("owner", .s owner), ("repo", .s repo), ("branches", .arr []),
         ("default_branch", .s (rRepo.body.default_branch.getD "main")),
         ("message", .s ("🌿 No branches found in " ++ owner ++ "/" ++ repo))] := by
    simp only [get_branch_status_overview, htok, Bool.not_true,
      Bool.false_eq_true, if_false, fetch, hB, hR, hP, if_true, hBody,
      List.isEmpty_nil, runTool, Except.instMonad, Bind.bind, Except.bind,
      Pure.pure, Except.pure, ite_true]
  refine ⟨hmain, ?_⟩
  rw [hmain]
  rfl

/-- C10 witness: the theorem applied at a concrete empty repository. -/
theorem branch_overview_empty_is_success_witness :
    get_branch_status_overview (some "t") demoParse demoFmt "o" "r" 5
        ⟨200, [], ""⟩ ⟨200, emptyRepoData, ""⟩ ⟨200, [], ""⟩ 0
      = [("owner", .s "o"), ("repo", .s "r"), ("branches", .arr []),
         ("default_branch",
           .s ((RespOf.mk 200 emptyRepoData "").body.default_branch.getD "main")),
         ("message", .s ("🌿 No branches found in " ++ "o" ++ "/" ++ "r"))] ∧
    rLookup (get_branch_status_overview (some "t") demoParse demoFmt "o" "r" 5
        ⟨200, [], ""⟩ ⟨200, emptyRepoData, ""⟩ ⟨200, [], ""⟩ 0) "error" = none :=
  branch_overview_empty_is_success (some "t") demoParse demoFmt "o" "r" 5
    ⟨200, [], ""⟩ ⟨200, emptyRepoData, ""⟩ ⟨200, [], ""⟩ 0
    (by decide) (by decide) rfl (by decide) (by decide)

/-! ### C8 -/

/-- C8: on a syntactically valid package.json whose `dependencies` mapping
has the entries `deps` and whose `devDependencies` mapping has the entries
`devs`, the package-manifest analyzer reports the counts exactly
`deps.length` and `devs.length`. -/
theorem package_json_dependency_counts (kvs deps devs : List (String × JVal))
    (h1 : aLookup kvs "dependencies" = some (JVal.obj deps))
    (h2 : aLookup kvs "devDependencies" = some (JVal.obj devs)) :
    ∃ r, analyze_package_json_json (some (JVal.obj kvs)) = .ok r ∧
      rLookup r "dependencies_count" = some (JVal.i deps.length) ∧
      rLookup r "dev_dependencies_count" = some (JVal.i devs.length) := by
  refine ⟨[("type", .s "node"),
    ("dependencies_count", .i deps.length),
    ("dev_dependencies_count", .i devs.length),
    ("security_packages", .arr ((security_packages.filter
      (fun pkg => pyIn pkg (JVal.obj deps))).map JVal.s)),
    ("testing_frameworks", .arr ((test_packages.filter
      (fun pkg => pyIn pkg (JVal.obj devs)
        || test_packages.any (fun t => pyInStr t pkg))).map JVal.s))],
    ?_, rfl, rfl⟩
  simp [analyze_package_json_json, jGetDict, h1, h2, pyLen, Bind.bind,
    Except.bind, Pure.pure, Except.pure]

/-- C8 witness: a manifest with two runtime and one dev dependency. -/
theorem package_json_dependency_counts_witness :
    ∃ r, analyze_package_json_json (some (JVal.obj pkgManifest)) = .ok r ∧
      rLookup r "dependencies_count" = some (JVal.i 2) ∧
      rLookup r "dev_dependencies_count" = some (JVal.i 1) :=
  package_json_dependency_counts pkgManifest pkgDeps pkgDevs rfl rfl

/-! ### C4 -/

/-- When every element's timestamp parses, the raising window comprehension
reduces to a plain filter. -/
theorem pyFilter_parse_ok {α : Type} (parse : String → Option Int)
    (f : α → String) (c : Int) (l : List α)
    (h : ∀ x ∈ l, (parse (f x)).isSome = true) :
    pyFilter (fun x => do
        let t ← eventTs parse (f x)
        pure (decide (t > c))) l
      = .ok (l.filter (fun x => decide ((parse (f x)).getD 0 > c))) := by
  induction l with
  | nil => rfl
  | cons x xs ih =>
    obtain ⟨t, ht⟩ := Option.isSome_iff_exists.mp (h x (List.mem_cons_self x xs))
    have ihh := ih (fun y hy => h y (List.mem_cons_of_mem _ hy))
    have hev : eventTs parse (f x) = .ok t := by simp [eventTs, ht]
    simp only [pyFilter]
    rw [hev, ihh]
    simp only [Bind.bind, Except.bind, Pure.pure, Except.pure,
      List.filter_cons, ht, Option.getD_some]

/-- When every element's timestamp parses, the raising map comprehension
reduces to a plain map. -/
theorem pyMapE_parse_ok {α β : Type} (parse : String → Option Int)
    (f : α → String) (g : Int → β) (l : List α)
    (h : ∀ x ∈ l, (parse (f x)).isSome = true) :
    pyMapE (fun x => do
        let t ← eventTs parse (f x)
        pure (g t)) l
      = .ok (l.map (fun x => g ((parse (f x)).getD 0))) := by
  induction l with
  | nil => rfl
  | cons x xs ih =>
    obtain ⟨t, ht⟩ := Option.isSome_iff_exists.mp (h x (List.mem_cons_self x xs))
    have ihh := ih (fun y hy => h y (List.mem_cons_of_mem _ hy))
    have hev : eventTs parse (f x) = .ok t := by simp [eventTs, ht]
    simp only [pyMapE]
    rw [hev, ihh]
    simp only [Bind.bind, Except.bind, Pure.pure, Except.pure, List.map_cons,
      ht, Option.getD_some]

/-- C4 (counterexample): an item with an unparseable timestamp is not
excluded from the windowed set — the `fromisoformat` call inside the
windowing comprehension raises `ValueError` and the whole analysis fails
instead of returning a report. -/
theorem unparseable_timestamp_aborts_analysis :
    analyze_issues demoParse mixedIssues 30 1704844800
      = .error (.valueError "Invalid isoformat string: not-a-date") ∧
    ¬ ∃ r, analyze_issues demoParse mixedIssues 30 1704844800 = .ok r := by
  have h : analyze_issues demoParse mixedIssues 30 1704844800
      = .error (.valueError "Invalid isoformat string: not-a-date") := by
    with_unfolding_all rfl
  refine ⟨h, ?_⟩
  rintro ⟨r, hr⟩
  rw [h] at hr
  exact Except.noConfusion hr

/-! ### Counting-dict lemmas -/

/-- The key list of one `defaultdict(int)` bump: unchanged for a known key,
extended at the end for a fresh one. -/
theorem bump_keys {K : Type} [DecidableEq K] (k : K) (l : List (K × Nat)) :
    (bump k l).map Prod.fst
      = if k ∈ l.map Prod.fst then l.map Prod.fst
        else l.map Prod.fst ++ [k] := by
  induction l with
  | nil => simp [bump]
  | cons p ps ih =>
    by_cases hk : p.1 = k
    · simp [bump, hk]
    · simp only [bump, hk, if_false, List.map_cons, ih]
      by_cases hmem : k ∈ ps.map Prod.fst <;>
        simp [hmem, List.mem_cons, Ne.symm hk]

/-- The keys of the counting fold are the first-occurrence fold of the
mapped keys. -/
theorem countBy_keys {α K : Type} [DecidableEq K] (key : α → K)
    (xs : List α) : ∀ acc : List (K × Nat),
    ((xs.foldl (fun a x => bump (key x) a) acc).map Prod.fst)
      = xs.foldl (fun ks x => if key x ∈ ks then ks else ks ++ [key x])
          (acc.map Prod.fst) := by
  induction xs with
  | nil => intro acc; rfl
  | cons x xs ih =>
    intro acc
    simp only [List.foldl_cons]
    rw [ih, bump_keys]

/-- The first-occurrence key fold has as many entries as there are distinct
keys. -/
theorem keyFold_length {α K : Type} [DecidableEq K] (key : α → K)
    (xs : List α) : ∀ ks : List K, ks.Nodup →
    (xs.foldl (fun ks x => if key x ∈ ks then ks else ks ++ [key x]) ks).length
      = (ks.toFinset ∪ (xs.map key).toFinset).card := by
  induction xs with
  | nil =>
    intro ks hnd
    simp [List.toFinset_card_of_nodup hnd]
  | cons x xs ih =>
    intro ks hnd
    simp only [List.foldl_cons, List.map_cons, List.toFinset_cons]
    by_cases h : key x ∈ ks
    · rw [if_pos h, ih ks hnd]
      congr 1
      rw [Finset.union_insert,
        Finset.insert_eq_self.mpr (Finset.mem_union_left _ (List.mem_toFinset.mpr h))]
    · rw [if_neg h, ih (ks ++ [key x]) (by simp [List.nodup_append, hnd, h])]
      congr 1
      simp [List.toFinset_append, Finset.insert_eq, Finset.union_assoc]

/-- `len(defaultdict)` built by counting equals the number of distinct
mapped keys. -/
theorem countBy_length {α K : Type} [DecidableEq K] (key : α → K)
    (xs : List α) :
    (countBy key xs).length = (xs.map key).dedup.length := by
  have h1 : (countBy key xs).length
      = ((countBy key xs).map Prod.fst).length := (List.length_map _ _).symm
  rw [h1, countBy, countBy_keys]
  simp only [List.map_nil]
  rw [keyFold_length key xs [] List.nodup_nil]
  simp [List.card_toFinset]

/-! ### C6 -/

/-- The full characterization of `_calculate_activity_score` when every
event timestamp parses: the value the source computes, with the counting
dicts replaced by distinct-value counts. -/
theorem calculate_activity_score_spec (parse : String → Option Int)
    (events : List Event) (days : Nat)
    (h : ∀ e ∈ events, (parse (e.created_at.getD "")).isSome = true) :
    calculate_activity_score parse events days
      = .ok (if events.isEmpty || days = 0 then 0
          else min (pyIntTrunc (
              min ((events.length : ℚ) / (days : ℚ) * 10) 50
            + min (((events.map (fun e => e.type.getD "")).dedup.length : ℚ) * 5) 30
            + min ((((events.map (fun e =>
                dayOf ((parse (e.created_at.getD "")).getD 0))).dedup.length : ℚ)
                / (days : ℚ) * 20)) 20)) 100) := by
  by_cases hc : events.isEmpty || days = 0
  · simp [calculate_activity_score, hc, Pure.pure, Except.pure]
  · have hmap := pyMapE_parse_ok parse (fun e : Event => e.created_at.getD "")
      (fun t => dayOf t) events h
    simp only [calculate_activity_score, hc, if_false, Bool.false_eq_true]
    rw [hmap]
    simp only [Bind.bind, Except.bind, Pure.pure, Except.pure]
    rw [countBy_length id]
    simp [List.map_id]

/-- C6: for every event list (with parseable timestamps) and window length,
the activity score is
`floor(min(events-per-day*10, 50) + min(types*5, 30) +
min((active-days/window)*20, 20))` clamped to 100, always lies in [0, 100],
and is 0 for an empty event list or a zero-length window. -/
theorem activity_score_formula (parse : String → Option Int)
    (events : List Event) (days : Nat)
    (h : ∀ e ∈ events, (parse (e.created_at.getD "")).isSome = true) :
    ∃ n : Int, calculate_activity_score parse events days = .ok n ∧
      0 ≤ n ∧ n ≤ 100 ∧
      ((events = [] ∨ days = 0) → n = 0) ∧
      (events ≠ [] → days ≠ 0 →
        n = min (pyIntTrunc (
              min ((events.length : ℚ) / (days : ℚ) * 10) 50
            + min (((events.map (fun e => e.type.getD "")).dedup.length : ℚ) * 5) 30
            + min ((((events.map (fun e =>
                dayOf ((parse (e.created_at.getD "")).getD 0))).dedup.length : ℚ)
                / (days : ℚ) * 20)) 20)) 100) := by
  refine ⟨_, calculate_activity_score_spec parse events days h, ?_, ?_, ?_, ?_⟩
  · by_cases hc : events.isEmpty || days = 0
    · simp [hc]
    · simp only [hc, if_false, Bool.false_eq_true]
      have htot : (0 : ℚ) ≤
          min ((events.length : ℚ) / (days : ℚ) * 10) 50
        + min (((events.map (fun e => e.type.getD "")).dedup.length : ℚ) * 5) 30
        + min ((((events.map (fun e =>
            dayOf ((parse (e.created_at.getD "")).getD 0))).dedup.length : ℚ)
            / (days : ℚ) * 20)) 20 := by
        have h1 : (0 : ℚ) ≤ min ((events.length : ℚ) / (days : ℚ) * 10) 50 :=
          le_min (by positivity) (by norm_num)
        have h2 : (0 : ℚ) ≤
            min (((events.map (fun e => e.type.getD "")).dedup.length : ℚ) * 5) 30 :=
          le_min (by positivity) (by norm_num)
        have h3 : (0 : ℚ) ≤ min ((((events.map (fun e =>
            dayOf ((parse (e.created_at.getD "")).getD 0))).dedup.length : ℚ)
            / (days : ℚ) * 20)) 20 :=
          le_min (by positivity) (by norm_num)
        linarith
      refine le_min ?_ (by norm_num)
      rw [pyIntTrunc, if_pos htot]
      exact Int.le_floor.mpr (by simpa using htot)
  · by_cases hc : events.isEmpty || days = 0
    · simp [hc]
    · simp only [hc, if_false, Bool.false_eq_true]
      exact min_le_right _ _
  · intro hz
    have : events.isEmpty || days = 0 := by
      rcases hz with hz | hz
      · simp [hz]
      · simp [hz]
    simp [this]
  · intro hne hdays
    have : (events.isEmpty || decide (days = 0)) = false := by
      cases events
      · exact absurd rfl hne
      · simp [hdays]
    simp [this]

/-- C6 witness: the theorem applied to two parseable events in a five-day
window. -/
theorem activity_score_formula_witness :
    ∃ n : Int, calculate_activity_score demoParse c6Events 5 = .ok n ∧
      0 ≤ n ∧ n ≤ 100 ∧
      ((c6Events = [] ∨ 5 = 0) → n = 0) ∧
      (c6Events ≠ [] → 5 ≠ 0 →
        n = min (pyIntTrunc (
              min ((c6Events.length : ℚ) / ((5 : Nat) : ℚ) * 10) 50
            + min (((c6Events.map (fun e => e.type.getD "")).dedup.length : ℚ) * 5) 30
            + min ((((c6Events.map (fun e =>
                dayOf ((demoParse (e.created_at.getD "")).getD 0))).dedup.length : ℚ)
                / ((5 : Nat) : ℚ) * 20)) 20)) 100) :=
  activity_score_formula demoParse c6Events 5 (by decide)

/-- Right-to-left bind reduction for `Except` on an already-ok value. -/
theorem exceptBind_ok {ε α β : Type} (a : α) (f : α → Except ε β) :
    (Except.ok (ε := ε) a >>= f) = f a := rfl

/-- C4 (amended): when every item timestamp parses, the windowed subsets
are exactly the items strictly after `now − N days`: the raising window
comprehension equals the plain filter, `_analyze_user_activity` reports
`total_events` as that filter's size, and `_analyze_issues` (after dropping
PR-backed entries) reports `recent_issues` likewise.  (The unparseable case
aborts instead of excluding, see the counterexample.) -/
theorem windowed_subsets_exact (parse : String → Option Int)
    (fmtDay : Int → String) (events : List Event) (issues : List Issue)
    (days : Nat) (now : Int)
    (hev : ∀ e ∈ events, (parse (e.created_at.getD "")).isSome = true)
    (hiss : ∀ i ∈ issues, i.has_pull_request = false →
      (parse (i.created_at.getD "")).isSome = true) :
    pyFilter (fun e => do
        let t ← eventTs parse (e.created_at.getD "")
        pure (decide (t > now - (days : Int) * 86400))) events
      = .ok (events.filter (fun e =>
          decide ((parse (e.created_at.getD "")).getD 0
            > now - (days : Int) * 86400))) ∧
    (events ≠ [] →
      ∃ r, analyze_user_activity parse fmtDay events days now = .ok r ∧
        rLookup r "total_events" = some (JVal.i ((events.filter (fun e =>
          decide ((parse (e.created_at.getD "")).getD 0
            > now - (days : Int) * 86400))).length))) ∧
    (issues ≠ [] →
      ∃ r, analyze_issues parse issues days now = .ok r ∧
        rLookup r "recent_issues" = some (JVal.i (((issues.filter (fun i =>
          !i.has_pull_request)).filter (fun i =>
          decide ((parse (i.created_at.getD "")).getD 0
            > now - (days : Int) * 86400))).length))) := by
  have hfil := pyFilter_parse_ok parse (fun e : Event => e.created_at.getD "")
    (now - (days : Int) * 86400) events hev
  refine ⟨hfil, ?_, ?_⟩
  · intro hne
    have hie : events.isEmpty = false := by
      cases events
      · exact absurd rfl hne
      · rfl
    have hsub : ∀ e ∈ events.filter (fun e =>
        decide ((parse (e.created_at.getD "")).getD 0
          > now - (days : Int) * 86400)),
        (parse (e.created_at.getD "")).isSome = true :=
      fun e he => hev e (List.mem_of_mem_filter he)
    have hd := pyMapE_parse_ok parse (fun e : Event => e.created_at.getD "")
      (fun t => dayOf t) _ hsub
    have hh := pyMapE_parse_ok parse (fun e : Event => e.created_at.getD "")
      (fun t => hourOf t) _ hsub
    have hscore := calculate_activity_score_spec parse _ days hsub
    simp only [analyze_user_activity, hie, Bool.false_eq_true, if_false]
    rw [hfil]
    simp only [exceptBind_ok]
    rw [hd]
    simp only [exceptBind_ok]
    rw [hh]
    simp only [exceptBind_ok]
    rw [hscore]
    simp only [exceptBind_ok, Pure.pure, Except.pure]
    exact ⟨_, rfl, rfl⟩
  · intro hne
    have hie : issues.isEmpty = false := by
      cases issues
      · exact absurd rfl hne
      · rfl
    have hfil2 := pyFilter_parse_ok parse (fun i : Issue => i.created_at.getD "")
      (now - (days : Int) * 86400)
      (issues.filter (fun i => !i.has_pull_request))
      (fun i hi => hiss i (List.mem_of_mem_filter hi)
        (by simpa using (List.mem_filter.mp hi).2))
    simp only [analyze_issues, hie, Bool.false_eq_true, if_false]
    rw [hfil2]
    simp only [exceptBind_ok, Pure.pure, Except.pure]
    exact ⟨_, rfl, rfl⟩

/-- C4 witness: the amended theorem applied to two parseable events and one
parseable issue over a 30-day window. -/
theorem windowed_subsets_exact_witness :
    pyFilter (fun e => do
        let t ← eventTs demoParse (e.created_at.getD "")
        pure (decide (t > 1704844800 - ((30 : Nat) : Int) * 86400))) c6Events
      = .ok (c6Events.filter (fun e =>
          decide ((demoParse (e.created_at.getD "")).getD 0
            > 1704844800 - ((30 : Nat) : Int) * 86400))) ∧
    (c6Events ≠ [] →
      ∃ r, analyze_user_activity demoParse demoFmtDay c6Events 30 1704844800
          = .ok r ∧
        rLookup r "total_events" = some (JVal.i ((c6Events.filter (fun e =>
          decide ((demoParse (e.created_at.getD "")).getD 0
            > 1704844800 - ((30 : Nat) : Int) * 86400))).length))) ∧
    (goodIssues ≠ [] →
      ∃ r, analyze_issues demoParse goodIssues 30 1704844800 = .ok r ∧
        rLookup r "recent_issues" = some (JVal.i (((goodIssues.filter (fun i =>
          !i.has_pull_request)).filter (fun i =>
          decide ((demoParse (i.created_at.getD "")).getD 0
            > 1704844800 - ((30 : Nat) : Int) * 86400))).length))) :=
  windowed_subsets_exact demoParse demoFmtDay c6Events goodIssues 30 1704844800
    (by decide) (by decide)

/-! ### C7 -/

/-- The streak walk over a consecutive run extends the running streak by the
run's length. -/
theorem streakWalk_consec (k : Nat) : ∀ (prev : Int) (temp longest : Nat),
    temp ≤ longest →
    streakWalk prev temp longest (consecFrom (prev + 1) k)
      = (temp + k, max longest (temp + k)) := by
  induction k with
  | zero =>
    intro prev temp longest h
    simp [consecFrom, streakWalk, Nat.max_eq_left h]
  | succ k ih =>
    intro prev temp longest h
    simp only [consecFrom, streakWalk,
      show (prev + 1 - prev : Int) = 1 from by ring, ite_true, if_pos]
    rw [ih (prev + 1) (temp + 1) (max longest (temp + 1)) (le_max_right _ _)]
    simp only [Prod.mk.injEq]
    refine ⟨by omega, ?_⟩
    rw [max_assoc, Nat.max_eq_right (by omega : temp + 1 ≤ temp + 1 + k)]
    congr 1
    omega

/-- The last day of a nonempty consecutive run is a member of it. -/
theorem mem_consecFrom_last (n : Nat) : ∀ a : Int, n ≠ 0 →
    a + (n : Int) - 1 ∈ consecFrom a n := by
  induction n with
  | zero => intro a h; exact absurd rfl h
  | succ k ih =>
    intro a _
    rcases Nat.eq_zero_or_pos k with hk | hk
    · subst hk
      simp [consecFrom]
    · simp only [consecFrom, List.mem_cons]
      right
      have hcast : a + ((k + 1 : Nat) : Int) - 1 = (a + 1) + (k : Int) - 1 := by
        push_cast
        ring
      rw [hcast]
      exact ih (a + 1) (by omega)

/-- C7: for every nonempty day→count mapping whose distinct days form a
gap-free run of consecutive calendar dates, `longest_streak` equals the
number of distinct days, and `current_streak` equals `longest_streak` when
the most recent day is today. -/
theorem streak_consecutive_run (daily : List (Int × Nat)) (a today : Int)
    (hne : daily ≠ [])
    (hsorted : List.insertionSort (fun x y => x ≤ y) (daily.map Prod.fst)
      = consecFrom a (daily.map Prod.fst).length) :
    rLookup (calculate_activity_streak daily today) "longest_streak"
      = some (JVal.i daily.length) ∧
    (a + (daily.length : Int) - 1 = today →
      rLookup (calculate_activity_streak daily today) "current_streak"
        = some (JVal.i daily.length)) := by
  have hie : daily.isEmpty = false := by
    cases daily
    · exact absurd rfl hne
    · rfl
  have hlen : (daily.map Prod.fst).length = daily.length := List.length_map _ _
  obtain ⟨m, hm⟩ : ∃ m, daily.length = m + 1 := by
    cases daily
    · exact absurd rfl hne
    · exact ⟨_, rfl⟩
  have hperm := List.perm_insertionSort (fun x y : Int => x ≤ y)
    (daily.map Prod.fst)
  rw [hsorted] at hperm
  simp only [calculate_activity_streak, hie, Bool.false_eq_true, if_false,
    hsorted, hlen, hm]
  simp only [consecFrom]
  rw [streakWalk_consec m a 1 (max 0 1) (by simp)]
  have hmax1 : max 0 1 = 1 := rfl
  have hmax2 : max (max 0 1) (1 + m) = m + 1 := by omega
  simp only [hmax2]
  constructor
  · simp [rLookup, Nat.add_comm]
  · intro htoday
    have hmem : today ∈ daily.map Prod.fst := by
      rw [hlen, hm] at hperm
      apply hperm.mem_iff.mp
      have hlast := mem_consecFrom_last (m + 1) a (Nat.succ_ne_zero m)
      rwa [htoday] at hlast
    rw [if_pos (Or.inl hmem)]
    simp [rLookup, Nat.add_comm]

/-- C7 witness: the theorem applied to three consecutive days whose last
day is today. -/
theorem streak_consecutive_run_witness :
    rLookup (calculate_activity_streak streakDaily 19733) "longest_streak"
      = some (JVal.i streakDaily.length) ∧
    ((19731 : Int) + (streakDaily.length : Int) - 1 = 19733 →
      rLookup (calculate_activity_streak streakDaily 19733) "current_streak"
        = some (JVal.i streakDaily.length)) ∧
    rLookup (calculate_activity_streak streakDaily 19733) "current_streak"
      = some (JVal.i streakDaily.length) :=
  have h := streak_consecutive_run streakDaily 19731 19733 (by decide) (by decide)
  ⟨h.1, h.2, h.2 (by decide)⟩

/-! ### C5 -/

/-- Short-circuiting of `Except` bind on an error. -/
theorem exceptBind_err {ε α β : Type} (e : ε) (f : α → Except ε β) :
    (Except.error (α := α) e >>= f) = .error e := rfl

/-- C5 (counterexample): the repository-health aggregator does not turn a
non-2xx constituent fetch into a failure report.  With the community-profile
fetch returning 404, `check_repository_health` still returns a success-shaped
report (no "error" key, a health score present) — its fetches never call
`raise_for_status`, and a non-200 community profile is explicitly replaced
by `{}`. -/
theorem health_check_tolerates_non2xx_fetch :
    rLookup (check_repository_health (some "t") demoParse "o" "r"
        ⟨200, emptyRepoData, ""⟩ ⟨200, [], ""⟩ ⟨404, JVal.obj [], "Not Found"⟩ 0)
      "error" = none ∧
    (rLookup (check_repository_health (some "t") demoParse "o" "r"
        ⟨200, emptyRepoData, ""⟩ ⟨200, [], ""⟩ ⟨404, JVal.obj [], "Not Found"⟩ 0)
      "health_score").isSome = true ∧
    rLookup (check_repository_health (some "t") demoParse "o" "r"
        ⟨200, emptyRepoData, ""⟩ ⟨200, [], ""⟩ ⟨404, JVal.obj [], "Not Found"⟩ 0)
      "status" = some (JVal.s "Poor") := by
  refine ⟨?_, ?_, ?_⟩ <;> with_unfolding_all rfl

/-- C5 (amended): for the user-contribution, repository-contribution,
PR-review-summary and branch-overview aggregators, the first constituent
fetch with a non-2xx status aborts the aggregation with exactly the
two-entry HTTP failure report (status code in "error", raw body in
"details") — no data from other fetches of the same call is merged in.  The
repository-health aggregator is excluded: it checks no statuses (see the
counterexample). -/
theorem non2xx_fetch_aborts_aggregation (token : Option String)
    (htok : truthyS token = true) (parse : String → Option Int)
    (fmtDay fmt : Int → String) (rUser : RespOf UserData)
    (rRepos rStarred : RespOf (List Repo)) (rEvents : RespOf (List Event))
    (rRepo : RespOf RepoData) (rContributors : RespOf (List Contributor))
    (rCommits : RespOf (List RepoCommit)) (rPrs : RespOf (List PrData))
    (rIssues : RespOf (List Issue)) (rPr : RespOf PrData)
    (rFiles : RespOf (List FileChange)) (rPrCommits : RespOf (List PrCommit))
    (rReviews : RespOf (List Review)) (rComments : RespOf (List CommentData))
    (rBranches : RespOf (List BranchItem)) (owner repo : String)
    (limit days : Nat) (now : Int) :
    (is2xx rUser.status = false →
      get_user_contribution_analytics token parse fmtDay rUser rRepos rEvents
        rStarred days now = httpErrorReport rUser.status rUser.text) ∧
    (is2xx rUser.status = true → is2xx rRepos.status = false →
      get_user_contribution_analytics token parse fmtDay rUser rRepos rEvents
        rStarred days now = httpErrorReport rRepos.status rRepos.text) ∧
    (is2xx rUser.status = true → is2xx rRepos.status = true →
      is2xx rEvents.status = false →
      get_user_contribution_analytics token parse fmtDay rUser rRepos rEvents
        rStarred days now = httpErrorReport rEvents.status rEvents.text) ∧
    (is2xx rUser.status = true → is2xx rRepos.status = true →
      is2xx rEvents.status = true → is2xx rStarred.status = false →
      get_user_contribution_analytics token parse fmtDay rUser rRepos rEvents
        rStarred days now = httpErrorReport rStarred.status rStarred.text) ∧
    (is2xx rRepo.status = false →
      get_repository_contribution_analytics token parse rRepo rContributors
        rCommits rPrs rIssues days now
        = httpErrorReport rRepo.status rRepo.text) ∧
    (is2xx rRepo.status = true → is2xx rContributors.status = false →
      get_repository_contribution_analytics token parse rRepo rContributors
        rCommits rPrs rIssues days now
        = httpErrorReport rContributors.status rContributors.text) ∧
    (is2xx rRepo.status = true → is2xx rContributors.status = true →
      is2xx rCommits.status = false →
      get_repository_contribution_analytics token parse rRepo rContributors
        rCommits rPrs rIssues days now
        = httpErrorReport rCommits.status rCommits.text) ∧
    (is2xx rRepo.status = true → is2xx rContributors.status = true →
      is2xx rCommits.status = true → is2xx rPrs.status = false →
      get_repository_contribution_analytics token parse rRepo rContributors
        rCommits rPrs rIssues days now
        = httpErrorReport rPrs.status rPrs.text) ∧
    (is2xx rRepo.status = true → is2xx rContributors.status = true →
      is2xx rCommits.status = true → is2xx rPrs.status = true →
      is2xx rIssues.status = false →
      get_repository_contribution_analytics token parse rRepo rContributors
        rCommits rPrs rIssues days now
        = httpErrorReport rIssues.status rIssues.text) ∧
    (is2xx rPr.status = false →
      get_pr_review_summary token rPr rFiles rPrCommits rReviews rComments
        = httpErrorReport rPr.status rPr.text) ∧
    (is2xx rPr.status = true → is2xx rFiles.status = false →
      get_pr_review_summary token rPr rFiles rPrCommits rReviews rComments
        = httpErrorReport rFiles.status rFiles.text) ∧
    (is2xx rPr.status = true → is2xx rFiles.status = true →
      is2xx rPrCommits.status = false →
      get_pr_review_summary token rPr rFiles rPrCommits rReviews rComments
        = httpErrorReport rPrCommits.status rPrCommits.text) ∧
    (is2xx rPr.status = true → is2xx rFiles.status = true →
      is2xx rPrCommits.status = true → is2xx rReviews.status = false →
      get_pr_review_summary token rPr rFiles rPrCommits rReviews rComments
        = httpErrorReport rReviews.status rReviews.text) ∧
    (is2xx rPr.status = true → is2xx rFiles.status = true →
      is2xx rPrCommits.status = true → is2xx rReviews.status = true →
      is2xx rComments.status = false →
      get_pr_review_summary token rPr rFiles rPrCommits rReviews rComments
        = httpErrorReport rComments.status rComments.text) ∧
    (is2xx rBranches.status = false →
      get_branch_status_overview token parse fmt owner repo limit rBranches
        rRepo rPrs now = httpErrorReport rBranches.status rBranches.text) ∧
    (is2xx rBranches.status = true → is2xx rRepo.status = false →
      get_branch_status_overview token parse fmt owner repo limit rBranches
        rRepo rPrs now = httpErrorReport rRepo.status rRepo.text) ∧
    (is2xx rBranches.status = true → is2xx rRepo.status = true →
      is2xx rPrs.status = false →
      get_branch_status_overview token parse fmt owner repo limit rBranches
        rRepo rPrs now = httpErrorReport rPrs.status rPrs.text) := by
  refine ⟨?_, ?_, ?_, ?_, ?_, ?_, ?_, ?_, ?_, ?_, ?_, ?_, ?_, ?_, ?_, ?_, ?_⟩ <;>
    (intros
     simp_all only [get_user_contribution_analytics,
       get_repository_contribution_analytics, get_pr_review_summary,
       get_branch_status_overview, httpErrorReport, runTool, fetch,
       Bool.not_true, Bool.false_eq_true, if_false, if_true, ite_true,
       ite_false, exceptBind_ok, exceptBind_err])

/-- C5 witness: the user-contribution aggregator with a 404 profile fetch
returns exactly the two-entry HTTP failure report. -/
theorem non2xx_fetch_aborts_aggregation_witness :
    get_user_contribution_analytics (some "t") demoParse demoFmtDay
        ⟨404, emptyUserData, "Not Found"⟩ ⟨200, [], ""⟩ ⟨200, [], ""⟩
        ⟨200, [], ""⟩ 30 0
      = httpErrorReport 404 "Not Found" :=
  (non2xx_fetch_aborts_aggregation (some "t") (by decide) demoParse demoFmtDay
    demoFmt ⟨404, emptyUserData, "Not Found"⟩ ⟨200, [], ""⟩ ⟨200, [], ""⟩
    ⟨200, [], ""⟩ ⟨200, emptyRepoData, ""⟩ ⟨200, [], ""⟩ ⟨200, [], ""⟩
    ⟨200, [], ""⟩ ⟨200, [], ""⟩ ⟨200, emptyPrData, ""⟩ ⟨200, [], ""⟩
    ⟨200, [], ""⟩ ⟨200, [], ""⟩ ⟨200, [], ""⟩ ⟨200, [], ""⟩ "o" "r" 5 30 0).1
    (by decide)

/-! ### C3 -/

/-- The score accumulated by a health-check loop is the sum of the per-item
points. -/
theorem accStep_foldl_score {I : Type} (f : I → Nat) (g h : I → List String)
    (l : List I) : ∀ init : CheckResult,
    (l.foldl (accStep f g h) init).score = init.score + (l.map f).sum := by
  induction l with
  | nil => intro init; simp
  | cons x xs ih =>
    intro init
    simp only [List.foldl_cons, List.map_cons, List.sum_cons, ih, accStep]
    omega

/-- Summing constant conditional points counts the matches. -/
theorem sum_map_ite_eq_countP {I : Type} (p : I → Bool) (c : Nat)
    (l : List I) :
    (l.map (fun i => if p i then c else 0)).sum = c * l.countP p := by
  induction l with
  | nil => simp
  | cons x xs ih =>
    by_cases hx : p x <;>
      simp [List.countP_cons, hx, ih, Nat.mul_add, Nat.mul_succ] <;> omega

/-- Counts of two disjoint predicates are jointly below the count of any
predicate subsuming both. -/
theorem countP_add_le_of_disjoint {I : Type} (p q r : I → Bool) (l : List I)
    (hp : ∀ x, p x = true → r x = true) (hq : ∀ x, q x = true → r x = true)
    (hpq : ∀ x, ¬(p x = true ∧ q x = true)) :
    l.countP p + l.countP q ≤ l.countP r := by
  induction l with
  | nil => simp
  | cons x xs ih =>
    simp only [List.countP_cons]
    by_cases hx : p x
    · have hr := hp x hx
      have hnq : q x = false := by
        rcases Bool.eq_false_or_eq_true (q x) with hv | hv
        · exact absurd ⟨hx, hv⟩ (hpq x)
        · exact hv
      simp [hx, hnq, hr]
      omega
    · by_cases hx2 : q x
      · have hr := hq x hx2
        simp [hx, hx2, hr]
        omega
      · simp [hx, hx2]
        rcases Bool.eq_false_or_eq_true (r x) with hv | hv <;> simp [hv] <;> omega

/-- Every CONTRIBUTING-family filename is in the contribution dict. -/
theorem contributing_subsumed (n : String) :
    contributing_names.contains n = true →
    (aLookup contrib_files n).isSome = true := by
  intro h
  simp only [contributing_names, List.contains_cons, List.contains_nil,
    Bool.or_eq_true, beq_iff_eq, Bool.false_eq_true, or_false] at h
  rcases h with h | h | h | h <;> subst h <;> decide

/-- Every CODE_OF_CONDUCT-family filename is in the contribution dict. -/
theorem conduct_subsumed (n : String) :
    conduct_names.contains n = true →
    (aLookup contrib_files n).isSome = true := by
  intro h
  simp only [conduct_names, List.contains_cons, List.contains_nil,
    Bool.or_eq_true, beq_iff_eq, Bool.false_eq_true, or_false] at h
  rcases h with h | h | h <;> subst h <;> decide

/-- No filename is in both contribution-file families. -/
theorem contributing_conduct_disjoint (n : String) :
    ¬(contributing_names.contains n = true ∧
      conduct_names.contains n = true) := by
  rintro ⟨h1, h2⟩
  simp only [contributing_names, List.contains_cons, List.contains_nil,
    Bool.or_eq_true, beq_iff_eq, Bool.false_eq_true, or_false] at h1
  rcases h1 with h | h | h | h <;> subst h <;> exact absurd h2 (by decide)

/-- A README in the listing makes `_check_readme` report existence. -/
theorem check_readme_exists_true (contents : List ContentItem)
    (h : contents.any (fun i =>
      (readme_files.map String.toUpper).contains i.name.toUpper) = true) :
    ∃ nm, check_readme contents
      = [("exists", .b true), ("file", .s nm)] := by
  obtain ⟨i, hi, hp⟩ := List.any_eq_true.mp h
  have hs : (contents.find? (fun item =>
      (readme_files.map String.toUpper).contains item.name.toUpper)).isSome :=
    List.find?_isSome.mpr ⟨i, hi, hp⟩
  obtain ⟨item, hfind⟩ := Option.isSome_iff_exists.mp hs
  refine ⟨item.name, ?_⟩
  simp only [check_readme]
  rw [hfind]

/-- License metadata or a LICENSE-family filename makes `_check_license`
report existence. -/
theorem check_license_exists_true (contents : List ContentItem)
    (repo_data : RepoData)
    (h : repo_data.license.isSome = true ∨
      contents.any (fun i => license_files.contains i.name) = true) :
    ∃ lic, check_license contents repo_data
      = [("exists", .b true), ("license", .s lic)] := by
  cases hl : repo_data.license with
  | some li => exact ⟨li.name.getD "Unknown", by simp [check_license, hl]⟩
  | none =>
    rcases h with h | h
    · rw [hl] at h
      exact absurd h (by simp)
    · obtain ⟨i, hi, hp⟩ := List.any_eq_true.mp h
      have hs : (contents.find? (fun item =>
          license_files.contains item.name)).isSome :=
        List.find?_isSome.mpr ⟨i, hi, hp⟩
      obtain ⟨item, hfind⟩ := Option.isSome_iff_exists.mp hs
      refine ⟨"License file found", ?_⟩
      simp only [check_license]
      rw [hl, hfind]

/-- A security-policy filename is worth at least its 5 points. -/
theorem check_security_score_ge (contents : List ContentItem)
    (h : 0 < contents.countP (fun i => security_files.contains i.name)) :
    5 ≤ (check_security_files contents).score := by
  obtain ⟨i, hi, hp⟩ := List.countP_pos.mp h
  have hsc : (check_security_files contents).score
      = (contents.map (fun i =>
          if security_files.contains i.name then 5 else 0)).sum := by
    simp [check_security_files, accStep_foldl_score]
  rw [hsc]
  have hmem := List.mem_map_of_mem (fun i : ContentItem =>
    if security_files.contains i.name then 5 else 0) hi
  have hle := List.single_le_sum (fun b _ => Nat.zero_le b) _ hmem
  have hp2 : i.name ∈ security_files := by simpa using hp
  simpa [hp2] using hle

/-- A contributing file and a code-of-conduct file are worth at least
3 + 3 points. -/
theorem check_contribution_score_ge (contents : List ContentItem)
    (h1 : 0 < contents.countP (fun i => contributing_names.contains i.name))
    (h2 : 0 < contents.countP (fun i => conduct_names.contains i.name)) :
    6 ≤ (check_contribution_files contents).score := by
  have hsc : (check_contribution_files contents).score
      = (contents.map (fun i =>
          if (aLookup contrib_files i.name).isSome then 3 else 0)).sum := by
    simp [check_contribution_files, accStep_foldl_score]
  rw [hsc, sum_map_ite_eq_countP]
  have hle := countP_add_le_of_disjoint
    (fun i : ContentItem => contributing_names.contains i.name)
    (fun i => conduct_names.contains i.name)
    (fun i => (aLookup contrib_files i.name).isSome) contents
    (fun x hx => contributing_subsumed x.name hx)
    (fun x hx => conduct_subsumed x.name hx)
    (fun x => contributing_conduct_disjoint x.name)
  omega

/-- A CI configuration filename is worth at least its 8 points. -/
theorem check_ci_score_ge (contents : List ContentItem)
    (h : 0 < contents.countP (fun i => (aLookup ci_files i.name).isSome)) :
    8 ≤ (check_ci_cd contents).score := by
  obtain ⟨i, hi, hp⟩ := List.countP_pos.mp h
  have hsc : (check_ci_cd contents).score
      = (contents.map (fun i =>
          if (aLookup ci_files i.name).isSome then 8
          else if i.type = "dir" && i.name = ".github" then 2 else 0)).sum := by
    simp [check_ci_cd, accStep_foldl_score]
  rw [hsc]
  have hmem := List.mem_map_of_mem (fun i : ContentItem =>
    if (aLookup ci_files i.name).isSome then 8
    else if i.type = "dir" && i.name = ".github" then 2 else 0) hi
  have hle := List.single_le_sum (fun b _ => Nat.zero_le b) _ hmem
  simpa [hp] using hle

/-- A dependency manifest together with its lock file is worth at least
5 + 2 points. -/
theorem check_dependencies_score_ge (contents : List ContentItem)
    (h : ∃ i ∈ contents, (aLookup dependency_files i.name).isSome = true ∧
      ∃ lf, lockFileFor i.name = some lf ∧
        contents.any (fun j => j.name = lf) = true) :
    7 ≤ (check_dependencies contents).score := by
  obtain ⟨i, hi, hdep, lf, hlf, hlock⟩ := h
  have hsc : (check_dependencies contents).score
      = (contents.map (fun i =>
          if (aLookup dependency_files i.name).isSome then
            5 + (match lockFileFor i.name with
              | some lf =>
                if contents.any (fun item => item.name = lf) then 2 else 0
              | none => 0)
          else 0)).sum := by
    simp [check_dependencies, accStep_foldl_score]
  rw [hsc]
  have hmem := List.mem_map_of_mem (fun i : ContentItem =>
    if (aLookup dependency_files i.name).isSome then
      5 + (match lockFileFor i.name with
        | some lf => if contents.any (fun item => item.name = lf) then 2 else 0
        | none => 0)
    else 0) hi
  have hle := List.single_le_sum (fun b _ => Nat.zero_le b) _ hmem
  simpa [hdep, hlf, hlock] using hle

/-- Enabled issues, wiki, projects and nonempty topics are worth exactly
3 + 2 + 2 + 5 settings points. -/
theorem check_settings_score_eq (repo_data : RepoData)
    (hi : repo_data.has_issues = true) (hw : repo_data.has_wiki = true)
    (hp : repo_data.has_projects = true) (ht : repo_data.topics ≠ []) :
    (check_repository_settings repo_data).score = 12 := by
  have ht2 : repo_data.topics.isEmpty = false := by
    cases htop : repo_data.topics
    · exact absurd htop ht
    · rfl
  by_cases ha : repo_data.archived <;> by_cases hf : repo_data.fork <;>
    simp [check_repository_settings, hi, hw, hp, ht2, ha, hf]

/-- `round(x, 1)` is the identity on (casts of) whole numbers. -/
theorem pyRound_natCast (n : Nat) : pyRound ((n : ℚ)) 1 = (n : ℚ) := by
  unfold pyRound roundHalfEven
  have h10 : ((n : ℚ) * (10 : ℚ) ^ (1 : Nat)) = (((10 * n : Nat)) : ℚ) := by
    push_cast
    ring
  rw [h10, Int.floor_natCast]
  norm_num

/-- With the token set and a parseable (or absent) `updated_at`, the health
check returns the pure core report for some computed day count. -/
theorem check_repository_health_ok (token : Option String)
    (parse : String → Option Int) (owner repo : String)
    (rRepo : RespOf RepoData) (rContents : RespOf (List ContentItem))
    (rCommunity : RespOf JVal) (now : Int)
    (htok : truthyS token = true)
    (hupd : truthyS rRepo.body.updated_at = false ∨
      (parse (rRepo.body.updated_at.getD "")).isSome = true) :
    ∃ d, check_repository_health token parse owner repo rRepo rContents
        rCommunity now
      = healthReportCore owner repo rRepo.body rContents.body d := by
  rcases Bool.eq_false_or_eq_true (truthyS rRepo.body.updated_at) with hu | hu
  · rcases hupd with h | h
    · rw [h] at hu
      cases hu
    · obtain ⟨t, ht⟩ := Option.isSome_iff_exists.mp h
      refine ⟨some (daysBetween now t), ?_⟩
      simp only [check_repository_health, htok, Bool.not_true,
        Bool.false_eq_true, if_false, hu, ite_true, eventTs, ht, runTool,
        exceptBind_ok, Pure.pure, Except.pure, Bind.bind, Except.bind]
  · refine ⟨none, ?_⟩
    simp only [check_repository_health, htok, Bool.not_true,
      Bool.false_eq_true, if_false, hu, ite_false, runTool, exceptBind_ok,
      Pure.pure, Except.pure]

/-- The artifact list of C3 guarantees at least 63 of the 100 health points
and a status above "Poor". -/
theorem healthReportCore_spec (owner repo : String) (repo_data : RepoData)
    (contents : List ContentItem) (d : Option Int)
    (hreadme : contents.any (fun i =>
      (readme_files.map String.toUpper).contains i.name.toUpper) = true)
    (hlic : repo_data.license.isSome = true ∨
      contents.any (fun i => license_files.contains i.name) = true)
    (hsec : 0 < contents.countP (fun i => security_files.contains i.name))
    (hcontrib : 0 < contents.countP (fun i => contributing_names.contains i.name))
    (hconduct : 0 < contents.countP (fun i => conduct_names.contains i.name))
    (hci : 0 < contents.countP (fun i => (aLookup ci_files i.name).isSome))
    (hdeps : ∃ i ∈ contents, (aLookup dependency_files i.name).isSome = true ∧
      ∃ lf, lockFileFor i.name = some lf ∧
        contents.any (fun j => j.name = lf) = true)
    (hiss : repo_data.has_issues = true) (hwiki : repo_data.has_wiki = true)
    (hproj : repo_data.has_projects = true) (htop : repo_data.topics ≠ []) :
    ∃ q st,
      rLookup (healthReportCore owner repo repo_data contents d)
        "health_score" = some (JVal.q q) ∧
      rLookup (healthReportCore owner repo repo_data contents d)
        "status" = some (JVal.s st) ∧
      63 ≤ q ∧ st ≠ "Poor" ∧
      rLookup (healthReportCore owner repo repo_data contents d)
        "error" = none := by
  obtain ⟨nm, hrm⟩ := check_readme_exists_true contents hreadme
  obtain ⟨lic, hlc⟩ := check_license_exists_true contents repo_data hlic
  have hsec5 := check_security_score_ge contents hsec
  have hcon6 := check_contribution_score_ge contents hcontrib hconduct
  have hci8 := check_ci_score_ge contents hci
  have hdep7 := check_dependencies_score_ge contents hdeps
  have hset12 := check_settings_score_eq repo_data hiss hwiki hproj htop
  have h15 : (match rLookup (check_readme contents) "exists" with
      | some (JVal.b v) => v
      | _ => false) = true := by
    rw [hrm]
    rfl
  have h10 : (match rLookup (check_license contents repo_data) "exists" with
      | some (JVal.b v) => v
      | _ => false) = true := by
    rw [hlc]
    rfl
  have h63 : 63 ≤ healthScoreOf repo_data contents d := by
    simp only [healthScoreOf, h15, h10, hset12, if_true, ite_true]
    omega
  have hdiv : ((healthScoreOf repo_data contents d : ℚ) / 100 * 100)
      = (healthScoreOf repo_data contents d : ℚ) := by
    field_simp
  have hmin : healthPercentageOf repo_data contents d
      = ((min 100 (healthScoreOf repo_data contents d) : Nat) : ℚ) := by
    rw [healthPercentageOf, hdiv]
    push_cast
    rfl
  have h50 : (50 : ℚ) ≤ healthPercentageOf repo_data contents d := by
    rw [hmin]
    exact_mod_cast Nat.le_min.mpr ⟨by norm_num, by omega⟩
  refine ⟨pyRound (healthPercentageOf repo_data contents d) 1,
    healthStatusOf (healthPercentageOf repo_data contents d),
    ?_, ?_, ?_, ?_, ?_⟩
  · rfl
  · rfl
  · rw [hmin, pyRound_natCast]
    exact_mod_cast Nat.le_min.mpr ⟨by norm_num, h63⟩
  · unfold healthStatusOf
    split_ifs with h1 h2 h3 <;> first
      | decide
      | exact absurd h50 h3
  · rfl

/-- C3 (counterexample): a repository exhibiting every artifact the claim
lists (plus a description) scores 73, status "Good" — not ≥ 90/"Excellent":
the listed artifacts sum to 63 points and even a description (10) and a
fresh update (10) can only reach 83 of the fixed 100-point budget. -/
theorem healthy_repo_not_excellent :
    rLookup (check_repository_health (some "t") demoParse "o" "r"
        ⟨200, healthyRepoData, ""⟩ ⟨200, healthyContents, ""⟩
        ⟨200, JVal.obj [], ""⟩ 0) "health_score" = some (JVal.q 73) ∧
    rLookup (check_repository_health (some "t") demoParse "o" "r"
        ⟨200, healthyRepoData, ""⟩ ⟨200, healthyContents, ""⟩
        ⟨200, JVal.obj [], ""⟩ 0) "status" = some (JVal.s "Good") ∧
    (73 : ℚ) < 90 := by
  refine ⟨?_, ?_, by norm_num⟩ <;> with_unfolding_all rfl

/-- C3 (amended): a repository whose fetched data shows a README, a
license, a security file, a contributing file, a code-of-conduct file, a CI
config filename, a dependency manifest with its lock file, issues, wiki and
projects enabled and topics set is reported with a health score percentage
of at least 63 and a status above "Poor" (90/"Excellent" is not implied by
these artifacts, see the counterexample). -/
theorem healthy_repo_scores_at_least_63 (token : Option String)
    (parse : String → Option Int) (owner repo : String)
    (rRepo : RespOf RepoData) (rContents : RespOf (List ContentItem))
    (rCommunity : RespOf JVal) (now : Int)
    (htok : truthyS token = true)
    (hupd : truthyS rRepo.body.updated_at = false ∨
      (parse (rRepo.body.updated_at.getD "")).isSome = true)
    (hreadme : rContents.body.any (fun i =>
      (readme_files.map String.toUpper).contains i.name.toUpper) = true)
    (hlic : rRepo.body.license.isSome = true ∨
      rContents.body.any (fun i => license_files.contains i.name) = true)
    (hsec : 0 < rContents.body.countP (fun i =>
      security_files.contains i.name))
    (hcontrib : 0 < rContents.body.countP (fun i =>
      contributing_names.contains i.name))
    (hconduct : 0 < rContents.body.countP (fun i =>
      conduct_names.contains i.name))
    (hci : 0 < rContents.body.countP (fun i =>
      (aLookup ci_files i.name).isSome))
    (hdeps : ∃ i ∈ rContents.body,
      (aLookup dependency_files i.name).isSome = true ∧
      ∃ lf, lockFileFor i.name = some lf ∧
        rContents.body.any (fun j => j.name = lf) = true)
    (hiss : rRepo.body.has_issues = true)
    (hwiki : rRepo.body.has_wiki = true)
    (hproj : rRepo.body.has_projects = true)
    (htop : rRepo.body.topics ≠ []) :
    ∃ q st,
      rLookup (check_repository_health token parse owner repo rRepo rContents
        rCommunity now) "health_score" = some (JVal.q q) ∧
      rLookup (check_repository_health token parse owner repo rRepo rContents
        rCommunity now) "status" = some (JVal.s st) ∧
      63 ≤ q ∧ st ≠ "Poor" ∧
      rLookup (check_repository_health token parse owner repo rRepo rContents
        rCommunity now) "error" = none := by
  obtain ⟨d, hd⟩ := check_repository_health_ok token parse owner repo rRepo
    rContents rCommunity now htok hupd
  obtain ⟨q, st, h1, h2, h3, h4, h5⟩ := healthReportCore_spec owner repo
    rRepo.body rContents.body d hreadme hlic hsec hcontrib hconduct hci
    hdeps hiss hwiki hproj htop
  rw [hd]
  exact ⟨q, st, h1, h2, h3, h4, h5⟩

/-- C3 witness: the amended theorem applied to the scenario repository. -/
theorem healthy_repo_scores_at_least_63_witness :
    ∃ q st,
      rLookup (check_repository_health (some "t") demoParse "o" "r"
        ⟨200, healthyRepoData, ""⟩ ⟨200, healthyContents, ""⟩
        ⟨200, JVal.obj [], ""⟩ 0) "health_score" = some (JVal.q q) ∧
      rLookup (check_repository_health (some "t") demoParse "o" "r"
        ⟨200, healthyRepoData, ""⟩ ⟨200, healthyContents, ""⟩
        ⟨200, JVal.obj [], ""⟩ 0) "status" = some (JVal.s st) ∧
      63 ≤ q ∧ st ≠ "Poor" ∧
      rLookup (check_repository_health (some "t") demoParse "o" "r"
        ⟨200, healthyRepoData, ""⟩ ⟨200, healthyContents, ""⟩
        ⟨200, JVal.obj [], ""⟩ 0) "error" = none :=
  healthy_repo_scores_at_least_63 (some "t") demoParse "o" "r"
    ⟨200, healthyRepoData, ""⟩ ⟨200, healthyContents, ""⟩
    ⟨200, JVal.obj [], ""⟩ 0 (by decide) (Or.inl (by decide))
    (by with_unfolding_all rfl)
    (Or.inl (by decide)) (by decide) (by decide) (by decide) (by decide)
    ⟨⟨"package.json", "file"⟩, by decide, by decide,
      "package-lock.json", by decide, by decide⟩
    (by decide) (by decide) (by decide) (by decide)

end GithubMcp
